import Mathlib

/-!
Verification of the API coverage analysis engine of
`script/python/api_coverage_report.py`.

The Python module is shallowly embedded below.  Python dictionaries that
preserve insertion order (`dict` / `collections.defaultdict`) are embedded as
association lists in insertion order; Python floats are embedded as exact
rationals (`ℚ`), the standard idealization of IEEE-754 arithmetic for this
kind of code; Python lists become Lean lists.  All embedded functions are
computable so that every statement can be evaluated on concrete inputs.
-/

namespace ApiCoverageReport

/-- Embeds the dataclass `EndpointInfo`: information about an API endpoint
(`operation_id`, `path`, `method`, `summary`, `tags`; a missing `tags`
argument defaults to `[]` at the construction sites). -/
structure EndpointInfo where
  operation_id : String
  path : String
  method : String
  summary : String
  tags : List String
deriving DecidableEq, Repr

/-- A `TagMapping` (the result of `FeatureFileParser.extract_operation_tags`):
a Python `dict` from operationId to the list of feature files that test it,
embedded as an association list in insertion order. -/
abbrev TagMapping := List (String × List String)

/-- Embeds the per-bucket statistics dictionary
`{'total': ..., 'covered': ..., 'percentage': ..., 'status': ...}` built by
`CoverageAnalyzer._calculate_coverage_by_tag` / `_calculate_coverage_by_method`. -/
structure BucketStats where
  total : Nat
  covered : Nat
  percentage : ℚ
  status : String
deriving DecidableEq, Repr

/-- Embeds the dataclass `CoverageReport`. -/
structure CoverageReport where
  total_endpoints : Nat
  covered_endpoints : Nat
  uncovered_endpoints : Nat
  coverage_percentage : ℚ
  covered_operations : List EndpointInfo
  uncovered_operations : List EndpointInfo
  coverage_by_tag : List (String × BucketStats)
  coverage_by_method : List (String × BucketStats)
deriving DecidableEq, Repr

namespace CoverageAnalyzer

/-- Embeds `CoverageAnalyzer._get_status_emoji`:
`'🟢'` when `percentage >= 80`, `'🟡'` when `percentage >= 60`, else `'🔴'`. -/
def get_status_emoji (percentage : ℚ) : String :=
  if percentage ≥ 80 then "🟢"
  else if percentage ≥ 60 then "🟡"
  else "🔴"

/-- One `defaultdict(lambda: {'total': 0, 'covered': 0})` update step:
`stats[key]['total'] += 1` and, when `isCovered`, `stats[key]['covered'] += 1`.
A key not yet present is appended at the end (Python dicts keep insertion
order); an existing key is updated in place. -/
def bumpBucket (m : List (String × Nat × Nat)) (k : String) (isCovered : Bool) :
    List (String × Nat × Nat) :=
  match m with
  | [] => [(k, 1, if isCovered then 1 else 0)]
  | (k', t, c) :: rest =>
    if k' == k then (k', t + 1, if isCovered then c + 1 else c) :: rest
    else (k', t, c) :: bumpBucket rest k isCovered

/-- The bucket percentage formula used by both aggregation passes:
`covered / total * 100` with `0` when `total == 0`. -/
def bucketPercentage (total covered : Nat) : ℚ :=
  if total > 0 then (covered : ℚ) / (total : ℚ) * 100 else 0

/-- The final loop of both aggregation passes: attach `'percentage'` and
`'status'` to each raw `(total, covered)` bucket. -/
def finalizeStats (m : List (String × Nat × Nat)) : List (String × BucketStats) :=
  m.map fun kv =>
    (kv.1, { total := kv.2.1, covered := kv.2.2,
             percentage := bucketPercentage kv.2.1 kv.2.2,
             status := get_status_emoji (bucketPercentage kv.2.1 kv.2.2) })

/-- The loop body of `_calculate_coverage_by_tag` for one operation:
`is_covered = op in covered` (Python list membership by value equality,
inlined here), and every tag string in `op.tags` gets its bucket bumped. -/
def tagBumpOp (covered : List EndpointInfo) (m : List (String × Nat × Nat))
    (op : EndpointInfo) : List (String × Nat × Nat) :=
  op.tags.foldl (fun acc tag => bumpBucket acc tag (decide (op ∈ covered))) m

/-- Embeds `CoverageAnalyzer._calculate_coverage_by_tag`: one pass over
`covered + uncovered`, bumping every tag bucket of every operation. -/
def calculate_coverage_by_tag (covered uncovered : List EndpointInfo) :
    List (String × BucketStats) :=
  finalizeStats ((covered ++ uncovered).foldl (tagBumpOp covered) [])

/-- The loop body of `_calculate_coverage_by_method` for one operation:
bump the bucket of `op.method` (`isCovered` is `true` during the pass over
the covered list and `false` during the pass over the uncovered list). -/
def methodBumpOp (isCovered : Bool) (m : List (String × Nat × Nat))
    (op : EndpointInfo) : List (String × Nat × Nat) :=
  bumpBucket m op.method isCovered

/-- Embeds `CoverageAnalyzer._calculate_coverage_by_method`: a pass over
`covered` bumping `total` and `covered`, then a pass over `uncovered`
bumping only `total`. -/
def calculate_coverage_by_method (covered uncovered : List EndpointInfo) :
    List (String × BucketStats) :=
  finalizeStats (uncovered.foldl (methodBumpOp false) (covered.foldl (methodBumpOp true) []))

/-- The membership test `op.operation_id in self.operation_tags` of
`CoverageAnalyzer.analyze` (Python `in` on a dict tests key membership). -/
def coveredBy (operation_tags : TagMapping) (op : EndpointInfo) : Bool :=
  (operation_tags.lookup op.operation_id).isSome

/-- Embeds `CoverageAnalyzer.analyze`: partition the operations by key
membership of their `operation_id` in the tag mapping (input order
preserved), derive the counters and the overall percentage
(`covered / total * 100`, `0` when `total == 0`), and aggregate by tag and
by method. -/
def analyze (operations : List EndpointInfo) (operation_tags : TagMapping) :
    CoverageReport :=
  let covered_ops := operations.filter (coveredBy operation_tags)
  let uncovered_ops := operations.filter (fun op => !(coveredBy operation_tags op))
  let total := operations.length
  let covered := covered_ops.length
  let coverage_pct : ℚ := if total > 0 then (covered : ℚ) / (total : ℚ) * 100 else 0
  { total_endpoints := total
    covered_endpoints := covered
    uncovered_endpoints := total - covered
    coverage_percentage := coverage_pct
    covered_operations := covered_ops
    uncovered_operations := uncovered_ops
    coverage_by_tag := calculate_coverage_by_tag covered_ops uncovered_ops
    coverage_by_method := calculate_coverage_by_method covered_ops uncovered_ops }

end CoverageAnalyzer

/-! ### Observers on raw bucket counters (proof infrastructure) -/

/-- The `total` counter stored for key `k` (`0` when `k` has no bucket). -/
def bucketTotalAt : List (String × Nat × Nat) → String → Nat
  | [], _ => 0
  | (ks, t, _) :: rest, k => if ks == k then t else bucketTotalAt rest k

/-- The `covered` counter stored for key `k` (`0` when `k` has no bucket). -/
def bucketCoveredAt : List (String × Nat × Nat) → String → Nat
  | [], _ => 0
  | (ks, _, c) :: rest, k => if ks == k then c else bucketCoveredAt rest k

/-- The sum of all `total` counters of a raw bucket table. -/
def statsTotalSum (m : List (String × Nat × Nat)) : Nat :=
  (m.map (fun kv => kv.2.1)).sum

/-! ### Operation extractor (`OpenAPIParser.extract_operations`) -/

/-- One operation object of the schema document: the optional fields read by
`extract_operations` (`operation.get('operationId', '')`,
`operation.get('summary', '')`, `operation.get('tags', [])`). -/
structure SchemaOperation where
  operationId : Option String
  summary : Option String
  tags : Option (List String)
deriving DecidableEq, Repr

/-- The loaded schema document: its top-level `paths` mapping, each path
mapping HTTP-verb keys to operation objects.  Python dicts preserve
insertion (document) order, embedded as association lists. -/
structure OpenAPISchema where
  paths : List (String × List (String × SchemaOperation))
deriving DecidableEq, Repr

/-- Python's `str.upper()` on a method string, as a structural map over the
characters (core's `String.toUpper` recurses on byte positions, which does
not reduce; this form is definitionally transparent). -/
def strUpper (s : String) : String := String.mk (s.data.map Char.toUpper)

namespace OpenAPIParser

/-- The fixed verb list iterated by `extract_operations`
(`for method in ['get', 'post', 'put', 'patch', 'delete']`). -/
def httpMethods : List String := ["get", "post", "put", "patch", "delete"]

/-- Embeds `OpenAPIParser.extract_operations`: for each path in document
order and each verb of the fixed verb list present in the path item, read
the operation; append it (with upper-cased method and defaulted summary and
tags) unless its `operationId` defaults to the empty string (`if
operation_id:` — Python string truthiness), in which case it is silently
skipped. -/
def extract_operations (schema : OpenAPISchema) : List EndpointInfo :=
  schema.paths.foldl
    (fun operations pathItem =>
      httpMethods.foldl
        (fun operations method =>
          match pathItem.2.lookup method with
          | none => operations
          | some operation =>
            if (operation.operationId.getD "") ≠ "" then
              operations ++
                [{ operation_id := operation.operationId.getD "",
                   path := pathItem.1,
                   method := strUpper method,
                   summary := operation.summary.getD "",
                   tags := operation.tags.getD [] }]
            else operations)
        operations)
    []

end OpenAPIParser

/-- For the refinement comparison of claim C5 only, this definition follows
the spec's words rather than the code: the flat operation list in document
iteration order (outer: the document's path order; inner: the path item's
own key order), restricted to the fixed verb set, skipping operations whose
`operationId` defaults to the empty string. -/
def docOrderOperations (schema : OpenAPISchema) : List EndpointInfo :=
  schema.paths.flatMap (fun pathItem =>
    pathItem.2.filterMap (fun mv =>
      if mv.1 ∈ OpenAPIParser.httpMethods then
        if (mv.2.operationId.getD "") ≠ "" then
          some { operation_id := mv.2.operationId.getD "",
                 path := pathItem.1,
                 method := strUpper mv.1,
                 summary := mv.2.summary.getD "",
                 tags := mv.2.tags.getD [] }
        else none
      else none))

/-- Order-explicit characterization of `extract_operations` (proved equal to
it below): document path order outside, the fixed verb order
`get, post, put, patch, delete` inside each path. -/
def verbOrderOperations (schema : OpenAPISchema) : List EndpointInfo :=
  schema.paths.flatMap (fun pathItem =>
    OpenAPIParser.httpMethods.filterMap (fun method =>
      match pathItem.2.lookup method with
      | none => none
      | some operation =>
        if (operation.operationId.getD "") ≠ "" then
          some { operation_id := operation.operationId.getD "",
                 path := pathItem.1,
                 method := strUpper method,
                 summary := operation.summary.getD "",
                 tags := operation.tags.getD [] }
        else none))

/-- A schema whose single path item lists `post` before `get`: document
iteration order and the extractor's fixed verb order disagree here. -/
def exSchemaVerbOrder : OpenAPISchema :=
  { paths := [("/x",
      [("post", { operationId := some "postX", summary := none, tags := none }),
       ("get", { operationId := some "getX", summary := none, tags := none })])] }

/-! ### Feature file scanner (`FeatureFileParser.extract_operation_tags`) -/

/-- A word character of the pattern `@apiOperation:(\w+)` (ASCII reading of
`\w`: letters, digits, underscore). -/
def isWordChar (c : Char) : Bool := c.isAlphanum || c == '_'

/-- The literal part of the pattern `@apiOperation:(\w+)`. -/
def markerChars : List Char := "@apiOperation:".data

namespace FeatureFileParser

/-- Embeds `re.findall` for the pattern `@apiOperation:(\w+)` on a content string: scan left to right; where
the literal marker is followed by a nonempty maximal run of word
characters, emit that run and continue after it (matches never overlap);
otherwise advance one character. -/
def findOperationIds : List Char → List String
  | [] => []
  | c :: rest =>
    if markerChars.isPrefixOf (c :: rest) then
      let after := (c :: rest).drop markerChars.length
      let w := after.takeWhile isWordChar
      if w.isEmpty then findOperationIds rest
      else String.mk w :: findOperationIds (after.dropWhile isWordChar)
    else findOperationIds rest
termination_by l => l.length
decreasing_by
  · simp
  · have h1 : (((c :: rest).drop markerChars.length).dropWhile isWordChar).length
        ≤ ((c :: rest).drop markerChars.length).length :=
      (List.dropWhile_sublist isWordChar).length_le
    have h2 : ((c :: rest).drop markerChars.length).length
        = (c :: rest).length - markerChars.length := List.length_drop _ _
    have h3 : markerChars.length = 14 := rfl
    simp only [List.length_cons] at h1 h2 ⊢
    omega
  · simp

/-- One discovered `*.feature` file as seen by the scanning loop: the
relative path string it records in the mapping, and the result of reading
it (`none` models a file whose `open`/`read` raised, which the `except`
branch turns into a warning and a skip). -/
structure FeatureFile where
  relative_path : String
  content : Option String
deriving DecidableEq, Repr

/-- Embeds `operation_tags[operation_id].append(relative_path)` on a
`defaultdict(list)` that preserves insertion order. -/
def appendTag (m : TagMapping) (k : String) (v : String) : TagMapping :=
  match m with
  | [] => [(k, [v])]
  | (k', vs) :: rest =>
    if k' == k then (k', vs ++ [v]) :: rest
    else (k', vs) :: appendTag rest k v

/-- Embeds `FeatureFileParser.extract_operation_tags`: for every discovered
feature file in order, read it; a file that cannot be read is skipped (after
a warning on stderr) and scanning continues; otherwise every matched
operationId gets the file's relative path appended to its mapping entry. -/
def extract_operation_tags (files : List FeatureFile) : TagMapping :=
  files.foldl
    (fun operation_tags file =>
      match file.content with
      | none => operation_tags
      | some content =>
        (findOperationIds content.data).foldl
          (fun m oid => appendTag m oid file.relative_path) operation_tags)
    []

end FeatureFileParser

/-- Relation stating that `files₂` is a degraded run of `files₁`: the same files in the same
order, except that some of them have become unreadable. -/
def degradedFrom (files₂ files₁ : List FeatureFileParser.FeatureFile) : Prop :=
  List.Forall₂
    (fun f₂ f₁ => f₂ = f₁ ∨ (f₂.relative_path = f₁.relative_path ∧ f₂.content = none))
    files₂ files₁

/-! ### String formatting helpers (Python `str.format` fields)

Python floats are embedded as exact rationals, so the decimal formatting
below is round-half-even on the exact value — the idealization of Python's
round-half-even on the underlying binary float. -/

/-- Python `ch * n` (e.g. `"=" * 80`). -/
def repChar (n : Nat) (c : Char) : String := String.mk (List.replicate n c)

/-- A left-aligned field of width `w` (`format(s, '<Ns')` / `'{:Ns}'` for
strings, which left-align by default). -/
def padRight (w : Nat) (s : String) : String := s ++ repChar (w - s.length) ' '

/-- A right-aligned field of width `w` (numeric fields right-align). -/
def padLeft (w : Nat) (s : String) : String := repChar (w - s.length) ' ' ++ s

/-- Leading zeros up to width `w` (for the fractional digits). -/
def padZeros (w : Nat) (s : String) : String := String.mk (List.replicate (w - s.length) '0') ++ s

/-- Python `round(q)`: round half to even, on the exact rational. -/
def roundHalfEven (q : ℚ) : ℤ :=
  if q - ⌊q⌋ < 1/2 then ⌊q⌋
  else if q - ⌊q⌋ > 1/2 then ⌊q⌋ + 1
  else if ⌊q⌋ % 2 = 0 then ⌊q⌋ else ⌊q⌋ + 1

/-- The `prec` decimal digits of the integer `n` scaled by `10 ^ prec`
(nonnegative values only, which is all this program formats). -/
def fixedDigits (prec : Nat) (n : ℤ) : String :=
  toString (n / ((10 : ℤ) ^ prec)) ++ "." ++ padZeros prec (toString (n % ((10 : ℤ) ^ prec)).toNat)

/-- Python `format(q, '.Nf')`: fixed-point with `prec` digits. -/
def fmtFixed (prec : Nat) (q : ℚ) : String :=
  if prec = 0 then toString (roundHalfEven q)
  else fixedDigits prec (roundHalfEven (q * ((10 : ℚ) ^ prec)))

/-- Python `round(q, 2)` (used by the JSON summary). -/
def round2 (q : ℚ) : ℚ := ((roundHalfEven (q * 100) : ℤ) : ℚ) / 100

/-- Python `repr(float)` (used where an f-string interpolates a float with
no format spec): the shortest exact decimal of at most 17 fractional
digits when one exists, else 17 fixed digits.  This is the idealization on
exact rationals of the shortest round-tripping decimal of the binary
float. -/
def pyFloatRepr (q : ℚ) : String :=
  match (List.range 18).find? (fun e => (q * ((10 : ℚ) ^ e)).den = 1) with
  | some 0 => toString q.num ++ ".0"
  | some e => fixedDigits e (q * ((10 : ℚ) ^ e)).num
  | none => fmtFixed 17 q

namespace ReportFormatter

/-- Embeds `sorted(report.coverage_by_tag.items(), key=lambda x: x[1]['percentage'],
reverse=True)` of `format_console` (and of the HTML and markdown
formatters): Python's sort is stable, and `reverse=True` keeps the original
(mapping) order among equal keys; embedded as a stable merge sort with the
reversed comparison. -/
def consoleSortedTags (report : CoverageReport) : List (String × BucketStats) :=
  report.coverage_by_tag.mergeSort (fun a b => decide (b.2.percentage ≤ a.2.percentage))

/-- Embeds `sorted(report.coverage_by_method.keys())`. -/
def consoleSortedMethodKeys (report : CoverageReport) : List String :=
  (report.coverage_by_method.map Prod.fst).mergeSort (fun a b => decide (a ≤ b))

/-- The Python tuple comparison on
`(x.tags[0] if x.tags else '', x.operation_id)` (lexicographic). -/
def uncoveredKeyLe (a b : EndpointInfo) : Bool :=
  decide (a.tags.headD "" < b.tags.headD "")
    || ((a.tags.headD "" == b.tags.headD "") && decide (a.operation_id ≤ b.operation_id))

/-- Embeds `sorted(report.uncovered_operations, key=lambda x: (x.tags[0] if x.tags
else '', x.operation_id))` of `format_console`. -/
def consoleSortedUncovered (report : CoverageReport) : List EndpointInfo :=
  report.uncovered_operations.mergeSort uncoveredKeyLe

/-- Embeds `sorted(report.covered_operations, key=lambda x: x.operation_id)` (used
by the console, HTML and markdown formatters; markdown and HTML also sort
uncovered operations this way). -/
def consoleSortedCovered (report : CoverageReport) : List EndpointInfo :=
  report.covered_operations.mergeSort (fun a b => decide (a.operation_id ≤ b.operation_id))

/-- Embeds `sorted(report.uncovered_operations, key=lambda x: x.operation_id)`
(HTML and markdown uncovered tables). -/
def idSortedUncovered (report : CoverageReport) : List EndpointInfo :=
  report.uncovered_operations.mergeSort (fun a b => decide (a.operation_id ≤ b.operation_id))

/-- One row of the console method table (source line 248). -/
def consoleMethodRow (k : String) (s : BucketStats) : String :=
  "  " ++ s.status ++ " " ++ padRight 8 k ++ "  " ++ padLeft 3 (toString s.covered)
    ++ "/" ++ padLeft 3 (toString s.total) ++ "  (" ++ padLeft 5 (fmtFixed 1 s.percentage)
    ++ "%)"

/-- One row of the console tag table (source line 257). -/
def consoleTagRow (k : String) (s : BucketStats) : String :=
  "  " ++ s.status ++ " " ++ padRight 20 k ++ "  " ++ padLeft 3 (toString s.covered)
    ++ "/" ++ padLeft 3 (toString s.total) ++ "  (" ++ padLeft 5 (fmtFixed 1 s.percentage)
    ++ "%)"

/-- One row of the console uncovered table (source lines 267-269): an
optional `[first tag] ` marker, then the padded id, method and path. -/
def consoleUncoveredRow (op : EndpointInfo) : String :=
  (if op.tags ≠ [] then "[" ++ op.tags.headD "" ++ "] " else "")
    ++ padRight 40 op.operation_id ++ " " ++ padRight 8 op.method ++ " " ++ op.path

/-- The COVERED ENDPOINTS section of `format_console` (source lines
273-283): header, the first 20 covered operations by operationId ascending,
each followed by up to the first 3 referencing feature files, then an
`... and N more` line when more than 20 covered operations exist, then an
empty line.  (No suffix is emitted for files beyond the 3 shown.) -/
def consoleCoveredSection (report : CoverageReport) (operation_tags : TagMapping) :
    List String :=
  ["COVERED ENDPOINTS (" ++ toString report.covered_operations.length ++ " total)",
   repChar 80 '-']
  ++ (if report.covered_operations ≠ [] then
        ((consoleSortedCovered report).take 20).foldl
          (fun lines op =>
            lines
              ++ ["  ✓ " ++ op.operation_id ++ " (" ++ op.method ++ " " ++ op.path ++ ")"]
              ++ ((((operation_tags.lookup op.operation_id).getD []).take 3).map
                  (fun f => "      → " ++ f)))
          []
        ++ (if report.covered_operations.length > 20 then
              ["  ... and " ++ toString (report.covered_operations.length - 20) ++ " more"]
            else [])
      else [])
  ++ [""]

/-- Embeds `ReportFormatter.format_console` as its list of lines (the
function returns `"\n".join(lines)`). -/
def format_console_lines (report : CoverageReport) (operation_tags : TagMapping) :
    List String :=
  [repChar 80 '=', "API ENDPOINT COVERAGE REPORT", repChar 80 '=', "",
   "COVERAGE STATUS LEGEND", repChar 80 '-',
   "  🟢 Green:  >= 80% coverage (Good)",
   "  🟡 Yellow: >= 60% coverage (Needs Improvement)",
   "  🔴 Red:    <  60% coverage (Critical)", "",
   "SUMMARY", repChar 80 '-',
   "Total Endpoints:      " ++ toString report.total_endpoints,
   "Covered Endpoints:    " ++ toString report.covered_endpoints,
   "Uncovered Endpoints:  " ++ toString report.uncovered_endpoints,
   "Coverage:             " ++ fmtFixed 2 report.coverage_percentage ++ "%", ""]
  ++ (if report.coverage_by_method ≠ [] then
        ["COVERAGE BY HTTP METHOD", repChar 80 '-']
        ++ (consoleSortedMethodKeys report).map
            (fun k => consoleMethodRow k ((report.coverage_by_method.lookup k).getD
              { total := 0, covered := 0, percentage := 0, status := "" }))
        ++ [""]
      else [])
  ++ (if report.coverage_by_tag ≠ [] then
        ["COVERAGE BY API TAG", repChar 80 '-']
        ++ (consoleSortedTags report).map (fun kv => consoleTagRow kv.1 kv.2)
        ++ [""]
      else [])
  ++ (if report.uncovered_operations ≠ [] then
        ["UNCOVERED ENDPOINTS", repChar 80 '-',
         padRight 40 "OperationId" ++ " " ++ padRight 8 "Method" ++ " "
           ++ padRight 30 "Path",
         repChar 80 '-']
        ++ (consoleSortedUncovered report).map consoleUncoveredRow
        ++ [""]
      else [])
  ++ consoleCoveredSection report operation_tags
  ++ [repChar 80 '=']

/-- Embeds `ReportFormatter.format_console`: the joined lines. -/
def format_console (report : CoverageReport) (operation_tags : TagMapping) : String :=
  "\n".intercalate (format_console_lines report operation_tags)

end ReportFormatter

/-- A tag mapping covering `getX` with four referencing feature files. -/
def exMap4 : TagMapping := [("getX", ["f1", "f2", "f3", "f4"])]

/-! ### JSON values (`ReportFormatter.format_json`) -/

/-- The JSON values `json.dumps` serializes: strings, ints, floats
(exact rationals here), arrays, and objects in key insertion order. -/
inductive Json where
  | str : String → Json
  | int : Int → Json
  | rat : ℚ → Json
  | arr : List Json → Json
  | obj : List (String × Json) → Json

/-- Object field access (used to state what the JSON summary contains). -/
def jsonField (j : Json) (k : String) : Option Json :=
  match j with
  | .obj kvs => kvs.lookup k
  | _ => none

/-- JSON string escaping for the characters that can occur in this
program's data (quote, backslash, and common control characters;
`ensure_ascii=False` keeps everything else raw). -/
def escChar (c : Char) : List Char :=
  if c = '"' then ['\\', '"']
  else if c = '\\' then ['\\', '\\']
  else if c = '\n' then ['\\', 'n']
  else if c = '\t' then ['\\', 't']
  else if c = '\r' then ['\\', 'r']
  else [c]

/-- Escape a string for a JSON string literal. -/
def escapeJson (s : String) : String := String.mk (s.data.flatMap escChar)

mutual

/-- Embeds `json.dumps(·, indent=2, ensure_ascii=False)` at nesting level `lvl`. -/
def renderJson (lvl : Nat) : Json → String
  | .str s => "\"" ++ escapeJson s ++ "\""
  | .int n => toString n
  | .rat q => pyFloatRepr q
  | .arr [] => "[]"
  | .arr (x :: xs) =>
    "[\n" ++ String.intercalate ",\n" (renderJsonItems (lvl + 2) (x :: xs))
      ++ "\n" ++ repChar lvl ' ' ++ "]"
  | .obj [] => "\x7b\x7d"
  | .obj (kv :: kvs) =>
    "\x7b\n" ++ String.intercalate ",\n" (renderJsonFields (lvl + 2) (kv :: kvs))
      ++ "\n" ++ repChar lvl ' ' ++ "\x7d"

/-- Array items, each on its own indented line. -/
def renderJsonItems (lvl : Nat) : List Json → List String
  | [] => []
  | x :: xs => (repChar lvl ' ' ++ renderJson lvl x) :: renderJsonItems lvl xs

/-- Object fields, each on its own indented line. -/
def renderJsonFields (lvl : Nat) : List (String × Json) → List String
  | [] => []
  | (k, v) :: xs =>
    (repChar lvl ' ' ++ "\"" ++ escapeJson k ++ "\": " ++ renderJson lvl v)
      :: renderJsonFields lvl xs

end

namespace ReportFormatter

/-- Embeds `dataclasses.asdict` on an `EndpointInfo` (field declaration order). -/
def asdictEndpoint (op : EndpointInfo) : List (String × Json) :=
  [("operation_id", .str op.operation_id),
   ("path", .str op.path),
   ("method", .str op.method),
   ("summary", .str op.summary),
   ("tags", .arr (op.tags.map .str))]

/-- One bucket's stats dictionary as JSON (key insertion order of the
analyzer: `total`, `covered`, `percentage`, `status`). -/
def statsJson (s : BucketStats) : Json :=
  .obj [("total", .int s.total), ("covered", .int s.covered),
        ("percentage", .rat s.percentage), ("status", .str s.status)]

/-- Embeds the `data` dictionary of `ReportFormatter.format_json` (source
lines 291-313): legend, summary (with the percentage rounded to 2 digits),
both bucket mappings, the covered operations with their `tested_in_files`
lists merged in from the tag mapping, and the uncovered operations. -/
def format_json_data (report : CoverageReport) (operation_tags : TagMapping) : Json :=
  .obj [
    ("legend", .obj [
      ("green", .obj [("emoji", .str "🟢"), ("threshold", .str ">= 80%"),
                      ("description", .str "Good coverage")]),
      ("yellow", .obj [("emoji", .str "🟡"), ("threshold", .str ">= 60%"),
                       ("description", .str "Needs improvement")]),
      ("red", .obj [("emoji", .str "🔴"), ("threshold", .str "< 60%"),
                    ("description", .str "Critical - needs attention")])]),
    ("summary", .obj [
      ("total_endpoints", .int report.total_endpoints),
      ("covered_endpoints", .int report.covered_endpoints),
      ("uncovered_endpoints", .int report.uncovered_endpoints),
      ("coverage_percentage", .rat (round2 report.coverage_percentage))]),
    ("coverage_by_method",
      .obj (report.coverage_by_method.map (fun kv => (kv.1, statsJson kv.2)))),
    ("coverage_by_tag",
      .obj (report.coverage_by_tag.map (fun kv => (kv.1, statsJson kv.2)))),
    ("covered_operations", .arr (report.covered_operations.map (fun op =>
      .obj (asdictEndpoint op
        ++ [("tested_in_files",
             .arr (((operation_tags.lookup op.operation_id).getD []).map .str))])))),
    ("uncovered_operations",
      .arr (report.uncovered_operations.map (fun op => .obj (asdictEndpoint op))))]

/-- Embeds `ReportFormatter.format_json`: the serialized `data` dictionary. -/
def format_json (report : CoverageReport) (operation_tags : TagMapping) : String :=
  renderJson 0 (format_json_data report operation_tags)

/-! ### Markdown formatter (`ReportFormatter.format_markdown`) -/

/-- The coverage badge of the markdown summary (source line 628): same
thresholds as `_get_status_emoji`. -/
def coverageBadge (pct : ℚ) : String :=
  if pct ≥ 80 then "🟢" else if pct ≥ 60 then "🟡" else "🔴"

/-- One markdown stats row (source lines 660 and 671 share this shape). -/
def mdStatRow (k : String) (s : BucketStats) : String :=
  "| " ++ s.status ++ " " ++ k ++ " | " ++ toString s.covered ++ " | "
    ++ toString s.total ++ " | " ++ fmtFixed 1 s.percentage ++ "% |"

/-- One markdown uncovered-endpoint row (source lines 681-682). -/
def mdUncoveredRow (op : EndpointInfo) : String :=
  "| `" ++ op.operation_id ++ "` | " ++ op.method ++ " | `" ++ op.path ++ "` | "
    ++ (if op.tags ≠ [] then ", ".intercalate op.tags else "") ++ " |"

/-- Embeds `ReportFormatter.format_markdown` as its list of lines.  `now` is
the wall-clock string `datetime.now().strftime('%Y-%m-%d %H:%M:%S')` the
function reads when it runs — the only clock access of any formatter. -/
def format_markdown_lines (now : String) (report : CoverageReport)
    (operation_tags : TagMapping) : List String :=
  ["# API Endpoint Coverage Report", "",
   coverageBadge report.coverage_percentage ++ " **Coverage: "
     ++ fmtFixed 2 report.coverage_percentage ++ "%**", "",
   "## Coverage Status Legend", "",
   "| Status | Threshold | Description |",
   "|--------|-----------|-------------|",
   "| 🟢 Green | ≥ 80% | Good coverage |",
   "| 🟡 Yellow | ≥ 60% | Needs improvement |",
   "| 🔴 Red | < 60% | Critical - needs attention |", "",
   "## Summary", "",
   "| Metric | Count |",
   "|--------|------:|",
   "| Total Endpoints | " ++ toString report.total_endpoints ++ " |",
   "| Covered Endpoints | " ++ toString report.covered_endpoints ++ " |",
   "| Uncovered Endpoints | " ++ toString report.uncovered_endpoints ++ " |",
   "| **Coverage Percentage** | **" ++ coverageBadge report.coverage_percentage ++ " "
     ++ fmtFixed 2 report.coverage_percentage ++ "%** |", ""]
  ++ (if report.coverage_by_method ≠ [] then
        ["## Coverage by HTTP Method", "",
         "| Method | Covered | Total | Percentage |",
         "|--------|--------:|------:|-----------:|"]
        ++ (consoleSortedMethodKeys report).map
            (fun k => mdStatRow k ((report.coverage_by_method.lookup k).getD
              { total := 0, covered := 0, percentage := 0, status := "" }))
        ++ [""]
      else [])
  ++ (if report.coverage_by_tag ≠ [] then
        ["## Coverage by API Tag", "",
         "| Tag | Covered | Total | Percentage |",
         "|-----|--------:|------:|-----------:|"]
        ++ (consoleSortedTags report).map (fun kv => mdStatRow kv.1 kv.2)
        ++ [""]
      else [])
  ++ (if report.uncovered_operations ≠ [] then
        ["## Uncovered Endpoints (" ++ toString report.uncovered_operations.length
           ++ " endpoints)", "",
         "| Operation ID | Method | Path | Tags |",
         "|-------------|--------|------|------|"]
        ++ (idSortedUncovered report).map mdUncoveredRow
        ++ [""]
      else [])
  ++ ["---", "", "*Report generated: " ++ now ++ "*", ""]

/-- Embeds `ReportFormatter.format_markdown`: the joined lines. -/
def format_markdown (now : String) (report : CoverageReport)
    (operation_tags : TagMapping) : String :=
  "\n".intercalate (format_markdown_lines now report operation_tags)

end ReportFormatter

/-! ### HTML formatter (`ReportFormatter.format_html`) -/

namespace ReportFormatter

/-- The head of the `format_html` output (source lines 319-512): document
head, CSS, legend, summary stat boxes, progress bar, and the method-table
head.  Literal braces are `\x7b`/`\x7d`, apostrophes `\x27`. -/
def htmlHead (report : CoverageReport) : String :=
  "<!DOCTYPE html>
<html lang=\"en\">
<head>
    <meta charset=\"UTF-8\">
    <meta name=\"viewport\" content=\"width=device-width, initial-scale=1.0\">
    <title>API Coverage Report</title>
    <style>
        body \x7b
            font-family: \x27Segoe UI\x27, Tahoma, Geneva, Verdana, sans-serif;
            margin: 0;
            padding: 20px;
            background-color: #f5f5f5;
        \x7d
        .container \x7b
            max-width: 1200px;
            min-width: 0; 
            margin: 0 auto;
            background: white;
            padding: 30px;
            border-radius: 8px;
            box-shadow: 0 2px 4px rgba(0,0,0,0.1);
        \x7d
        h1 \x7b
            color: #333;
            border-bottom: 3px solid #4CAF50;
            padding-bottom: 10px;
        \x7d
        h2 \x7b
            color: #555;
            margin-top: 30px;
            border-bottom: 2px solid #ddd;
            padding-bottom: 5px;
        \x7d
        .summary \x7b
            display: grid;
            grid-template-columns: repeat(auto-fit, minmax(200px, 1fr));
            gap: 20px;
            margin: 20px 0;
        \x7d
        .stat-box \x7b
            background: linear-gradient(135deg, #667eea 0%, #764ba2 100%);
            color: white;
            padding: 20px;
            border-radius: 8px;
            text-align: center;
        \x7d
        .stat-box.covered \x7b
            background: linear-gradient(135deg, #11998e 0%, #38ef7d 100%);
        \x7d
        .stat-box.uncovered \x7b
            background: linear-gradient(135deg, #ee0979 0%, #ff6a00 100%);
        \x7d
        .stat-box h3 \x7b
            margin: 0;
            font-size: 2em;
            font-weight: bold;
        \x7d
        .stat-box p \x7b
            margin: 5px 0 0 0;
            opacity: 0.9;
        \x7d
        .progress-bar \x7b
            width: 100%;
            height: 30px;
            background-color: #e0e0e0;
            border-radius: 15px;
            overflow: hidden;
            margin: 20px 0;
        \x7d
        .progress-fill \x7b
            height: 100%;
            background: linear-gradient(90deg, #11998e 0%, #38ef7d 100%);
            display: flex;
            align-items: center;
            justify-content: center;
            color: white;
            font-weight: bold;
            transition: width 0.3s ease;
        \x7d
        
        .progress-text \x7b
            position: relative;
            z-index: 1; /* keeps text above the fill */
            color: #000;
            min-width: 12%;
            padding-left: 8px;
            white-space: nowrap;
        \x7d
        table \x7b
            width: 100%;
            border-collapse: collapse;
            margin: 20px 0;
            table-layout: fixed;
            border-collapse: collapse;
        \x7d
        th \x7b
            background-color: #667eea;
            color: white;
            padding: 12px;
            text-align: left;
            font-weight: 600;
            white-space: normal;
            overflow-wrap: anywhere;
            word-break: break-word;
        \x7d
        td \x7b
            white-space: normal;
            padding: 10px 12px;
            border-bottom: 1px solid #ddd;
            word-break: break-all;
        \x7d
        
        tr:hover \x7b
            background-color: #f5f5f5;
        \x7d
        .method \x7b
            display: inline-block;
            padding: 4px 8px;
            border-radius: 4px;
            font-weight: bold;
            font-size: 0.85em;
        \x7d
        .method.GET \x7b background-color: #61affe; color: white; \x7d
        .method.POST \x7b background-color: #49cc90; color: white; \x7d
        .method.PUT \x7b background-color: #fca130; color: white; \x7d
        .method.PATCH \x7b background-color: #50e3c2; color: white; \x7d
        .method.DELETE \x7b background-color: #f93e3e; color: white; \x7d
        .tag \x7b
            display: inline-block;
            background-color: #e0e0e0;
            padding: 2px 8px;
            border-radius: 3px;
            font-size: 0.85em;
            margin: 2px;
        \x7d
        .covered-icon \x7b color: #4CAF50; \x7d
        .uncovered-icon \x7b color: #f44336; \x7d
        .file-link \x7b
            color: #667eea;
            font-size: 0.9em;
            margin-left: 20px;
            display: block;
        \x7d
    </style>
</head>
<body>
    <div class=\"container\">
        <h1>🎯 API Endpoint Coverage Report</h1>

        <div style=\"background-color: #f8f9fa; padding: 15px; border-radius: 8px; margin-bottom: 20px; border-left: 4px solid #667eea;\">
            <h3 style=\"margin-top: 0; color: #333;\">Coverage Status Legend</h3>
            <div style=\"display: flex; gap: 30px; flex-wrap: wrap;\">
                <div><strong>🟢 Green:</strong> ≥ 80% coverage (Good)</div>
                <div><strong>🟡 Yellow:</strong> ≥ 60% coverage (Needs Improvement)</div>
                <div><strong>🔴 Red:</strong> &lt; 60% coverage (Critical)</div>
            </div>
        </div>

        <div class=\"summary\">
            <div class=\"stat-box\">
                <h3>"
  ++ toString report.total_endpoints
  ++ "</h3>
                <p>Total Endpoints</p>
            </div>
            <div class=\"stat-box covered\">
                <h3>"
  ++ toString report.covered_endpoints
  ++ "</h3>
                <p>Covered</p>
            </div>
            <div class=\"stat-box uncovered\">
                <h3>"
  ++ toString report.uncovered_endpoints
  ++ "</h3>
                <p>Uncovered</p>
            </div>
        </div>

        <div class=\"progress-bar\">
            <div class=\"progress-fill\" style=\"width: "
  ++ pyFloatRepr report.coverage_percentage
  ++ "%\">
                <span class=\"progress-text\">"
  ++ toString (roundHalfEven report.coverage_percentage)
  ++ "% Coverage</span>
            </div>
            
        </div>

        <h2>📊 Coverage by HTTP Method</h2>
        <table>
            <thead>
                <tr>
                    <th>Status</th>
                    <th>Method</th>
                    <th>Total</th>
                    <th>Covered</th>
                    <th>Uncovered</th>
                    <th>Coverage</th>
                </tr>
            </thead>
            <tbody>
"

/-- Static chunk of `format_html`: method table close and tag table head (source lines 525-542). -/
def htmlMethodTableClose : String :=
  "
            </tbody>
        </table>

        <h2>🏷️ Coverage by API Tag</h2>
        <table>
            <thead>
                <tr>
                    <th>Status</th>
                    <th>Tag</th>
                    <th>Total</th>
                    <th>Covered</th>
                    <th>Uncovered</th>
                    <th>Coverage</th>
                </tr>
            </thead>
            <tbody>
"

/-- Static chunk of `format_html`: tag table close and uncovered table head (source lines 555-570). -/
def htmlTagTableClose : String :=
  "
            </tbody>
        </table>

        <h2>❌ Uncovered Endpoints</h2>
        <table style=\x27width: 100%; max-width: 100%; table-layout: fixed;\x27>
            <thead>
                <tr>
                    <th>Operation ID</th>
                    <th>Method</th>
                    <th>Path</th>
                    <th>Tags</th>
                </tr>
            </thead>
            <tbody>
"

/-- Static chunk of `format_html`: uncovered table close and covered table head (source lines 581-596). -/
def htmlUncoveredTableClose : String :=
  "
            </tbody>
        </table>

        <h2>✅ Covered Endpoints</h2>
        <table>
            <thead>
                <tr>
                    <th>Operation ID</th>
                    <th>Method</th>
                    <th>Path</th>
                    <th>Tested In</th>
                </tr>
            </thead>
            <tbody>
"

/-- Static chunk of `format_html`: document tail (source lines 611-617). -/
def htmlTail : String :=
  "
            </tbody>
        </table>
    </div>
</body>
</html>
"

/-- One HTML method-table row (source lines 515-524). -/
def htmlMethodRow (k : String) (s : BucketStats) : String :=
  "\n                <tr>\n                    <td>" ++ s.status
    ++ "</td>\n                    <td><span class=\"method " ++ k ++ "\">" ++ k
    ++ "</span></td>\n                    <td>" ++ toString s.total
    ++ "</td>\n                    <td>" ++ toString s.covered
    ++ "</td>\n                    <td>" ++ toString (s.total - s.covered)
    ++ "</td>\n                    <td>" ++ fmtFixed 1 s.percentage
    ++ "%</td>\n                </tr>\n"

/-- One HTML tag-table row (source lines 545-554). -/
def htmlTagRow (k : String) (s : BucketStats) : String :=
  "\n                <tr>\n                    <td>" ++ s.status
    ++ "</td>\n                    <td><span class=\"tag\">" ++ k
    ++ "</span></td>\n                    <td>" ++ toString s.total
    ++ "</td>\n                    <td>" ++ toString s.covered
    ++ "</td>\n                    <td>" ++ toString (s.total - s.covered)
    ++ "</td>\n                    <td>" ++ fmtFixed 1 s.percentage
    ++ "%</td>\n                </tr>\n"

/-- The `tags_html` of an uncovered row (source line 572): one span per tag. -/
def htmlTagsSpans (tags : List String) : String :=
  String.join (tags.map (fun tag => "<span class=\"tag\">" ++ tag ++ "</span>"))

/-- One HTML uncovered-endpoint row (source lines 571-580). -/
def htmlUncoveredRow (op : EndpointInfo) : String :=
  "\n                <tr>\n                    <td><span class=\"uncovered-icon\">✗</span> "
    ++ op.operation_id
    ++ "</td>\n                    <td><span class=\"method " ++ op.method ++ "\">"
    ++ op.method
    ++ "</span></td>\n                    <td><code>" ++ op.path
    ++ "</code></td>\n                    <td>" ++ htmlTagsSpans op.tags
    ++ "</td>\n                </tr>\n"

/-- The `files_html` of a covered row (source lines 599-601): the first 5
referencing files as links, then an `... and N more` span beyond 5. -/
def htmlFilesHtml (feature_files : List String) : String :=
  "<br>".intercalate
      ((feature_files.take 5).map
        (fun f => "<span class=\"file-link\">→ " ++ f ++ "</span>"))
    ++ (if feature_files.length > 5 then
          "<br><span class=\"file-link\">... and "
            ++ toString (feature_files.length - 5) ++ " more</span>"
        else "")

/-- One HTML covered-endpoint row (source lines 597-610). -/
def htmlCoveredRow (op : EndpointInfo) (operation_tags : TagMapping) : String :=
  "\n                <tr>\n                    <td><span class=\"covered-icon\">✓</span> "
    ++ op.operation_id
    ++ "</td>\n                    <td><span class=\"method " ++ op.method ++ "\">"
    ++ op.method
    ++ "</span></td>\n                    <td><code>" ++ op.path
    ++ "</code></td>\n                    <td>"
    ++ htmlFilesHtml ((operation_tags.lookup op.operation_id).getD [])
    ++ "</td>\n                </tr>\n"

/-- Everything `format_html` appends after the head: the four tables with
their sorted rows (methods by key ascending, tags by percentage descending
with stable ties, uncovered and covered rows by operationId ascending), and
the document tail. -/
def htmlRest (report : CoverageReport) (operation_tags : TagMapping) : String :=
  String.join ((consoleSortedMethodKeys report).map
      (fun k => htmlMethodRow k ((report.coverage_by_method.lookup k).getD
        { total := 0, covered := 0, percentage := 0, status := "" })))
    ++ htmlMethodTableClose
    ++ String.join ((consoleSortedTags report).map (fun kv => htmlTagRow kv.1 kv.2))
    ++ htmlTagTableClose
    ++ String.join ((idSortedUncovered report).map htmlUncoveredRow)
    ++ htmlUncoveredTableClose
    ++ String.join ((consoleSortedCovered report).map
        (fun op => htmlCoveredRow op operation_tags))
    ++ htmlTail

/-- Embeds `ReportFormatter.format_html`: the head followed by the tables. -/
def format_html (report : CoverageReport) (operation_tags : TagMapping) : String :=
  htmlHead report ++ htmlRest report operation_tags

end ReportFormatter


/-! ### Concrete example inputs (used by witnesses and demonstrations) -/

/-- An operation carrying two schema tags. -/
def exOpMultiTag : EndpointInfo :=
  { operation_id := "getX", path := "/x", method := "GET", summary := "", tags := ["a", "b"] }

/-- An operation carrying no schema tags. -/
def exOpNoTag : EndpointInfo :=
  { operation_id := "getY", path := "/y", method := "GET", summary := "", tags := [] }

/-- A tag mapping covering `getX` only. -/
def exMapX : TagMapping := [("getX", ["f1.feature"])]

end ApiCoverageReport

namespace ApiCoverageReport

open CoverageAnalyzer

/-! ## Helper lemmas -/

lemma lookup_isSome_iff_mem_keys {β : Type} (m : List (String × β)) (k : String) :
    (m.lookup k).isSome = true ↔ k ∈ m.map Prod.fst := by
  induction m with
  | nil => simp [List.lookup]
  | cons kv rest ih =>
    obtain ⟨k', v⟩ := kv
    simp only [List.lookup, List.map_cons, List.mem_cons]
    by_cases h : k = k'
    · subst h; simp
    · have hbeq : (k == k') = false := by
        simpa using h
      simp [hbeq, ih, h, eq_comm]

lemma coveredBy_eq (m : TagMapping) (op : EndpointInfo) :
    coveredBy m op = decide (op.operation_id ∈ m.map Prod.fst) := by
  have h := lookup_isSome_iff_mem_keys m op.operation_id
  by_cases hm : op.operation_id ∈ m.map Prod.fst
  · simp [coveredBy, h.mpr hm, hm]
  · have hfalse : (m.lookup op.operation_id).isSome = false := by
      rcases hls : (m.lookup op.operation_id).isSome with _ | _
      · rfl
      · exact absurd (h.mp hls) hm
    simp [coveredBy, hfalse, hm]

lemma bucketPercentage_nonneg (t c : Nat) : 0 ≤ CoverageAnalyzer.bucketPercentage t c := by
  unfold CoverageAnalyzer.bucketPercentage
  split
  · positivity
  · exact le_refl 0

lemma bucketPercentage_le_100 {t c : Nat} (h : c ≤ t) :
    CoverageAnalyzer.bucketPercentage t c ≤ 100 := by
  unfold CoverageAnalyzer.bucketPercentage
  split
  · rename_i htot
    have hlen : (c : ℚ) ≤ (t : ℚ) := by exact_mod_cast h
    have hpos : (0 : ℚ) < (t : ℚ) := by exact_mod_cast htot
    have h1 : (c : ℚ) / (t : ℚ) ≤ 1 := (div_le_one hpos).mpr hlen
    calc (c : ℚ) / (t : ℚ) * 100 ≤ 1 * 100 :=
          mul_le_mul_of_nonneg_right h1 (by norm_num)
      _ = 100 := by norm_num
  · norm_num

lemma analyze_coverage_percentage (ops : List EndpointInfo) (m : TagMapping) :
    (analyze ops m).coverage_percentage
      = CoverageAnalyzer.bucketPercentage ops.length (ops.filter (coveredBy m)).length := rfl

/-! ## Claims -/

/-- Claim C1. For every list of operations and every tag mapping, `analyze`
places each operation in `coveredOperations` exactly when its `operationId`
is a key of the tag mapping and in `uncoveredOperations` otherwise, and the
relative input order of operations is preserved within each of the two
output lists (each output list is the order-preserving filter of the input
by the key-membership test, hence a sublist of the input). -/
theorem C1_analyze_partition (ops : List EndpointInfo) (m : TagMapping) :
    (analyze ops m).covered_operations
        = ops.filter (fun op => decide (op.operation_id ∈ m.map Prod.fst))
    ∧ (analyze ops m).uncovered_operations
        = ops.filter (fun op => decide (op.operation_id ∉ m.map Prod.fst))
    ∧ List.Sublist (analyze ops m).covered_operations ops
    ∧ List.Sublist (analyze ops m).uncovered_operations ops := by
  refine ⟨?_, ?_, ?_, ?_⟩
  · exact List.filter_congr (fun op _ => coveredBy_eq m op)
  · refine List.filter_congr (fun op _ => ?_)
    rw [coveredBy_eq m op]
    by_cases h : op.operation_id ∈ m.map Prod.fst <;> simp [h]
  · exact List.filter_sublist ops
  · exact List.filter_sublist ops

/-- Claim C2. For every input, `analyze` satisfies
`coveredEndpoints + uncoveredEndpoints = totalEndpoints`, the coverage
percentage lies in `[0, 100]` and equals `0` when `totalEndpoints = 0`;
`analyze` is a total function (it never raises), and degenerate inputs
(empty operation list, or empty mapping) yield all-zero counts and `0%`
coverage. -/
theorem C2_analyze_invariants (ops : List EndpointInfo) (m : TagMapping) :
    (analyze ops m).covered_endpoints + (analyze ops m).uncovered_endpoints
        = (analyze ops m).total_endpoints
    ∧ 0 ≤ (analyze ops m).coverage_percentage
    ∧ (analyze ops m).coverage_percentage ≤ 100
    ∧ ((analyze ops m).total_endpoints = 0 → (analyze ops m).coverage_percentage = 0)
    ∧ (ops = [] →
        analyze ops m =
          { total_endpoints := 0, covered_endpoints := 0, uncovered_endpoints := 0,
            coverage_percentage := 0, covered_operations := [], uncovered_operations := [],
            coverage_by_tag := [], coverage_by_method := [] })
    ∧ (m = [] →
        (analyze ops m).covered_endpoints = 0 ∧ (analyze ops m).coverage_percentage = 0) := by
  have hle : (ops.filter (coveredBy m)).length ≤ ops.length := List.length_filter_le _ _
  refine ⟨?_, ?_, ?_, ?_, ?_, ?_⟩
  · simp only [analyze]
    omega
  · rw [analyze_coverage_percentage]
    exact bucketPercentage_nonneg _ _
  · rw [analyze_coverage_percentage]
    exact bucketPercentage_le_100 hle
  · intro h
    have hops : ops.length = 0 := h
    rw [analyze_coverage_percentage]
    unfold CoverageAnalyzer.bucketPercentage
    simp [hops]
  · intro h
    subst h
    rfl
  · intro h
    subst h
    constructor
    · simp [analyze, coveredBy, List.lookup]
    · simp [analyze, coveredBy, List.lookup]

/-- Witness for `C2_analyze_invariants`: the degenerate input `([], [])`
discharges every hypothesis of the theorem concretely. -/
theorem C2_analyze_invariants_witness :
    (analyze [] []).coverage_percentage = 0
    ∧ analyze ([] : List EndpointInfo) ([] : TagMapping) =
        { total_endpoints := 0, covered_endpoints := 0, uncovered_endpoints := 0,
          coverage_percentage := 0, covered_operations := [], uncovered_operations := [],
          coverage_by_tag := [], coverage_by_method := [] }
    ∧ (analyze [] []).covered_endpoints = 0 :=
  ⟨(C2_analyze_invariants [] []).2.2.2.1 (by rfl),
   (C2_analyze_invariants [] []).2.2.2.2.1 rfl,
   ((C2_analyze_invariants [] []).2.2.2.2.2 rfl).1⟩

/-! ### Raw bucket counter lemmas -/

lemma lookup_eq_some_bucketAt {m : List (String × Nat × Nat)} {k : String} {tc : Nat × Nat}
    (h : m.lookup k = some tc) :
    bucketTotalAt m k = tc.1 ∧ bucketCoveredAt m k = tc.2 := by
  induction m with
  | nil => simp [List.lookup] at h
  | cons kv rest ih =>
    obtain ⟨ks, v⟩ := kv
    by_cases hks : k = ks
    · subst hks
      simp [List.lookup] at h
      simp [bucketTotalAt, bucketCoveredAt, h]
    · have hbeq : (k == ks) = false := beq_eq_false_iff_ne.mpr hks
      have hbeq2 : (ks == k) = false := beq_eq_false_iff_ne.mpr (Ne.symm hks)
      simp only [List.lookup, hbeq] at h
      simp only [bucketTotalAt, bucketCoveredAt, hbeq2, if_neg]
      exact ih h

lemma lookup_eq_none_bucketAt {m : List (String × Nat × Nat)} {k : String}
    (h : m.lookup k = none) :
    bucketTotalAt m k = 0 ∧ bucketCoveredAt m k = 0 := by
  induction m with
  | nil => exact ⟨rfl, rfl⟩
  | cons kv rest ih =>
    obtain ⟨ks, v⟩ := kv
    by_cases hks : k = ks
    · subst hks
      simp [List.lookup] at h
    · have hbeq : (k == ks) = false := beq_eq_false_iff_ne.mpr hks
      have hbeq2 : (ks == k) = false := beq_eq_false_iff_ne.mpr (Ne.symm hks)
      simp only [List.lookup, hbeq] at h
      simp only [bucketTotalAt, bucketCoveredAt, hbeq2, if_neg]
      exact ih h

lemma bumpBucket_bucketAt_self (m : List (String × Nat × Nat)) (k : String) (b : Bool) :
    bucketTotalAt (CoverageAnalyzer.bumpBucket m k b) k = bucketTotalAt m k + 1
    ∧ bucketCoveredAt (CoverageAnalyzer.bumpBucket m k b) k
        = bucketCoveredAt m k + (if b then 1 else 0) := by
  induction m with
  | nil =>
    cases b <;> simp [CoverageAnalyzer.bumpBucket, bucketTotalAt, bucketCoveredAt]
  | cons kv rest ih =>
    obtain ⟨ks, t, c⟩ := kv
    by_cases hks : ks = k
    · subst hks
      cases b <;> simp [CoverageAnalyzer.bumpBucket, bucketTotalAt, bucketCoveredAt]
    · have hbeq : (ks == k) = false := beq_eq_false_iff_ne.mpr hks
      simp [CoverageAnalyzer.bumpBucket, bucketTotalAt, bucketCoveredAt, hbeq, ih]

lemma bumpBucket_bucketAt_ne (m : List (String × Nat × Nat)) (b : Bool) {k k' : String}
    (h : k' ≠ k) :
    bucketTotalAt (CoverageAnalyzer.bumpBucket m k b) k' = bucketTotalAt m k'
    ∧ bucketCoveredAt (CoverageAnalyzer.bumpBucket m k b) k' = bucketCoveredAt m k' := by
  have hkk : (k == k') = false := beq_eq_false_iff_ne.mpr (Ne.symm h)
  induction m with
  | nil =>
    simp [CoverageAnalyzer.bumpBucket, bucketTotalAt, bucketCoveredAt, hkk]
  | cons kv rest ih =>
    obtain ⟨ks, t, c⟩ := kv
    by_cases hks : ks = k
    · subst hks
      simp [CoverageAnalyzer.bumpBucket, bucketTotalAt, bucketCoveredAt, hkk]
    · have hbeq : (ks == k) = false := beq_eq_false_iff_ne.mpr hks
      simp [CoverageAnalyzer.bumpBucket, bucketTotalAt, bucketCoveredAt, hbeq, ih]

lemma bumpBucket_statsTotalSum (m : List (String × Nat × Nat)) (k : String) (b : Bool) :
    statsTotalSum (CoverageAnalyzer.bumpBucket m k b) = statsTotalSum m + 1 := by
  induction m with
  | nil => simp [CoverageAnalyzer.bumpBucket, statsTotalSum]
  | cons kv rest ih =>
    obtain ⟨ks, t, c⟩ := kv
    by_cases hks : ks = k
    · subst hks
      simp [CoverageAnalyzer.bumpBucket, statsTotalSum]
      omega
    · have hbeq : (ks == k) = false := beq_eq_false_iff_ne.mpr hks
      simp [CoverageAnalyzer.bumpBucket, statsTotalSum, hbeq] at ih ⊢
      omega

lemma foldl_bumpTags_bucketAt (tags : List String) (b : Bool)
    (m₀ : List (String × Nat × Nat)) (k : String) :
    bucketTotalAt (tags.foldl (fun acc tag => CoverageAnalyzer.bumpBucket acc tag b) m₀) k
      = bucketTotalAt m₀ k + tags.countP (fun x => x == k)
    ∧ bucketCoveredAt (tags.foldl (fun acc tag => CoverageAnalyzer.bumpBucket acc tag b) m₀) k
      = bucketCoveredAt m₀ k + (if b then tags.countP (fun x => x == k) else 0) := by
  induction tags generalizing m₀ with
  | nil => simp
  | cons t rest ih =>
    simp only [List.foldl_cons, List.countP_cons]
    by_cases htk : t = k
    · subst htk
      have hb := bumpBucket_bucketAt_self m₀ t b
      have hr := ih (CoverageAnalyzer.bumpBucket m₀ t b)
      constructor
      · rw [hr.1, hb.1]
        simp
        omega
      · rw [hr.2, hb.2]
        cases b <;> simp <;> omega
    · have hbeq : (t == k) = false := beq_eq_false_iff_ne.mpr htk
      have hb := bumpBucket_bucketAt_ne m₀ b (fun hkk => htk hkk.symm)
      have hr := ih (CoverageAnalyzer.bumpBucket m₀ t b)
      constructor
      · rw [hr.1, hb.1]
        simp [hbeq]
      · rw [hr.2, hb.2]
        simp [hbeq]

lemma foldl_bumpTags_statsTotalSum (tags : List String) (b : Bool)
    (m₀ : List (String × Nat × Nat)) :
    statsTotalSum (tags.foldl (fun acc tag => CoverageAnalyzer.bumpBucket acc tag b) m₀)
      = statsTotalSum m₀ + tags.length := by
  induction tags generalizing m₀ with
  | nil => simp
  | cons t rest ih =>
    simp only [List.foldl_cons, List.length_cons]
    rw [ih (CoverageAnalyzer.bumpBucket m₀ t b), bumpBucket_statsTotalSum]
    omega

lemma foldl_tagBumpOp_bucketAt (l cov : List EndpointInfo)
    (m₀ : List (String × Nat × Nat)) (k : String) :
    bucketTotalAt (l.foldl (CoverageAnalyzer.tagBumpOp cov) m₀) k
      = bucketTotalAt m₀ k + (l.map (fun op => op.tags.countP (fun x => x == k))).sum
    ∧ bucketCoveredAt (l.foldl (CoverageAnalyzer.tagBumpOp cov) m₀) k
      = bucketCoveredAt m₀ k
        + (l.map (fun op =>
            if op ∈ cov then op.tags.countP (fun x => x == k) else 0)).sum := by
  induction l generalizing m₀ with
  | nil => simp
  | cons op rest ih =>
    simp only [List.foldl_cons, List.map_cons, List.sum_cons]
    have hstep := foldl_bumpTags_bucketAt op.tags (decide (op ∈ cov)) m₀ k
    have hr := ih (CoverageAnalyzer.tagBumpOp cov m₀ op)
    constructor
    · rw [hr.1]
      rw [show bucketTotalAt (CoverageAnalyzer.tagBumpOp cov m₀ op) k
            = bucketTotalAt m₀ k + op.tags.countP (fun x => x == k) from hstep.1]
      omega
    · rw [hr.2]
      rw [show bucketCoveredAt (CoverageAnalyzer.tagBumpOp cov m₀ op) k
            = bucketCoveredAt m₀ k
              + (if decide (op ∈ cov) then op.tags.countP (fun x => x == k) else 0) from
          hstep.2]
      by_cases hmem : op ∈ cov
      · simp [hmem]
        omega
      · simp [hmem]

lemma foldl_tagBumpOp_statsTotalSum (l cov : List EndpointInfo)
    (m₀ : List (String × Nat × Nat)) :
    statsTotalSum (l.foldl (CoverageAnalyzer.tagBumpOp cov) m₀)
      = statsTotalSum m₀ + (l.map (fun op => op.tags.length)).sum := by
  induction l generalizing m₀ with
  | nil => simp
  | cons op rest ih =>
    simp only [List.foldl_cons, List.map_cons, List.sum_cons]
    rw [ih (CoverageAnalyzer.tagBumpOp cov m₀ op)]
    rw [show statsTotalSum (CoverageAnalyzer.tagBumpOp cov m₀ op)
          = statsTotalSum m₀ + op.tags.length from
        foldl_bumpTags_statsTotalSum op.tags (decide (op ∈ cov)) m₀]
    omega

lemma foldl_methodBumpOp_bucketAt (l : List EndpointInfo) (b : Bool)
    (m₀ : List (String × Nat × Nat)) (k : String) :
    bucketTotalAt (l.foldl (CoverageAnalyzer.methodBumpOp b) m₀) k
      = bucketTotalAt m₀ k + l.countP (fun op => op.method == k)
    ∧ bucketCoveredAt (l.foldl (CoverageAnalyzer.methodBumpOp b) m₀) k
      = bucketCoveredAt m₀ k + (if b then l.countP (fun op => op.method == k) else 0) := by
  induction l generalizing m₀ with
  | nil => simp
  | cons op rest ih =>
    simp only [List.foldl_cons, List.countP_cons]
    have hr := ih (CoverageAnalyzer.methodBumpOp b m₀ op)
    simp only [CoverageAnalyzer.methodBumpOp] at hr ⊢
    by_cases hmk : op.method = k
    · have hb := bumpBucket_bucketAt_self m₀ op.method b
      subst hmk
      constructor
      · rw [hr.1, hb.1]
        simp
        omega
      · rw [hr.2, hb.2]
        cases b <;> simp <;> omega
    · have hb := bumpBucket_bucketAt_ne m₀ b (fun hkk => hmk hkk.symm)
      have hbeq : (op.method == k) = false := beq_eq_false_iff_ne.mpr hmk
      constructor
      · rw [hr.1, hb.1]
        simp [hbeq]
      · rw [hr.2, hb.2]
        simp [hbeq]

lemma foldl_methodBumpOp_statsTotalSum (l : List EndpointInfo) (b : Bool)
    (m₀ : List (String × Nat × Nat)) :
    statsTotalSum (l.foldl (CoverageAnalyzer.methodBumpOp b) m₀)
      = statsTotalSum m₀ + l.length := by
  induction l generalizing m₀ with
  | nil => simp
  | cons op rest ih =>
    simp only [List.foldl_cons, List.length_cons]
    rw [ih (CoverageAnalyzer.methodBumpOp b m₀ op)]
    simp only [CoverageAnalyzer.methodBumpOp]
    rw [bumpBucket_statsTotalSum]
    omega

/-! ### Finalization lemmas -/

lemma finalizeStats_lookup (m : List (String × Nat × Nat)) (k : String) :
    (CoverageAnalyzer.finalizeStats m).lookup k
      = (m.lookup k).map (fun tc =>
          { total := tc.1, covered := tc.2,
            percentage := CoverageAnalyzer.bucketPercentage tc.1 tc.2,
            status := CoverageAnalyzer.get_status_emoji
              (CoverageAnalyzer.bucketPercentage tc.1 tc.2) }) := by
  induction m with
  | nil => rfl
  | cons kv rest ih =>
    obtain ⟨ks, tc⟩ := kv
    by_cases hks : k = ks
    · subst hks
      simp [CoverageAnalyzer.finalizeStats, List.lookup]
    · have hbeq : (k == ks) = false := beq_eq_false_iff_ne.mpr hks
      simpa [CoverageAnalyzer.finalizeStats, List.lookup, hbeq] using ih

lemma finalizeStats_totalsMap (m : List (String × Nat × Nat)) :
    (CoverageAnalyzer.finalizeStats m).map (fun kv => kv.2.total)
      = m.map (fun kv => kv.2.1) := by
  simp [CoverageAnalyzer.finalizeStats, List.map_map]

/-! ### Claims C3 and C4 -/

/-- Claim C3. For every input, the `byMethod` buckets of the report form a
partition of the operations: the bucket of method `k` has `total` equal to
the number of operations whose own method is `k` and `covered` equal to the
number of covered operations with method `k` (so each operation increments
`total` in exactly one bucket, and `covered` exactly when covered); every
operation's method has a bucket; hence the sum of `byMethod[*].total`
equals `totalEndpoints`. -/
theorem C3_by_method_partition (ops : List EndpointInfo) (m : TagMapping) :
    (((analyze ops m).coverage_by_method).map (fun kv => kv.2.total)).sum
        = (analyze ops m).total_endpoints
    ∧ (∀ k : String,
        (((analyze ops m).coverage_by_method.lookup k).map (fun s => s.total)).getD 0
            = ops.countP (fun op => op.method == k)
        ∧ (((analyze ops m).coverage_by_method.lookup k).map (fun s => s.covered)).getD 0
            = (analyze ops m).covered_operations.countP (fun op => op.method == k))
    ∧ (∀ op, op ∈ ops → ((analyze ops m).coverage_by_method.lookup op.method).isSome = true) := by
  have hperm : List.Perm
      (ops.filter (coveredBy m) ++ ops.filter (fun op => !(coveredBy m op))) ops :=
    List.filter_append_perm (coveredBy m) ops
  have hbyMethod : (analyze ops m).coverage_by_method
      = CoverageAnalyzer.finalizeStats
          ((ops.filter (fun op => !(coveredBy m op))).foldl (CoverageAnalyzer.methodBumpOp false)
            ((ops.filter (coveredBy m)).foldl (CoverageAnalyzer.methodBumpOp true) [])) := rfl
  have hcountP : ∀ k : String,
      bucketTotalAt
          ((ops.filter (fun op => !(coveredBy m op))).foldl (CoverageAnalyzer.methodBumpOp false)
            ((ops.filter (coveredBy m)).foldl (CoverageAnalyzer.methodBumpOp true) [])) k
        = ops.countP (fun op => op.method == k)
      ∧ bucketCoveredAt
          ((ops.filter (fun op => !(coveredBy m op))).foldl (CoverageAnalyzer.methodBumpOp false)
            ((ops.filter (coveredBy m)).foldl (CoverageAnalyzer.methodBumpOp true) [])) k
        = (ops.filter (coveredBy m)).countP (fun op => op.method == k) := by
    intro k
    have h1 := foldl_methodBumpOp_bucketAt (ops.filter (coveredBy m)) true [] k
    have h2 := foldl_methodBumpOp_bucketAt (ops.filter (fun op => !(coveredBy m op))) false
      ((ops.filter (coveredBy m)).foldl (CoverageAnalyzer.methodBumpOp true) []) k
    have hsplit : ops.countP (fun op => op.method == k)
        = (ops.filter (coveredBy m)).countP (fun op => op.method == k)
          + (ops.filter (fun op => !(coveredBy m op))).countP (fun op => op.method == k) := by
      rw [← hperm.countP_eq (fun op => op.method == k), List.countP_append]
    constructor
    · rw [h2.1, h1.1]
      simp only [bucketTotalAt]
      omega
    · rw [h2.2, h1.2]
      simp [bucketCoveredAt]
  refine ⟨?_, ?_, ?_⟩
  · rw [hbyMethod]
    have : ((CoverageAnalyzer.finalizeStats
        ((ops.filter (fun op => !(coveredBy m op))).foldl (CoverageAnalyzer.methodBumpOp false)
          ((ops.filter (coveredBy m)).foldl (CoverageAnalyzer.methodBumpOp true) []))).map
        (fun kv => kv.2.total)).sum
        = statsTotalSum
            ((ops.filter (fun op => !(coveredBy m op))).foldl (CoverageAnalyzer.methodBumpOp false)
              ((ops.filter (coveredBy m)).foldl (CoverageAnalyzer.methodBumpOp true) [])) := by
      rw [finalizeStats_totalsMap]
      rfl
    rw [this, foldl_methodBumpOp_statsTotalSum, foldl_methodBumpOp_statsTotalSum]
    have hlen : (ops.filter (coveredBy m)).length
        + (ops.filter (fun op => !(coveredBy m op))).length = ops.length := by
      have := hperm.length_eq
      simpa [List.length_append] using this
    show 0 + (ops.filter (coveredBy m)).length
        + (ops.filter (fun op => !(coveredBy m op))).length = ops.length
    omega
  · intro k
    have hcovops : (analyze ops m).covered_operations = ops.filter (coveredBy m) := rfl
    rw [hbyMethod, finalizeStats_lookup, hcovops]
    cases hraw : List.lookup k
        ((ops.filter (fun op => !(coveredBy m op))).foldl (CoverageAnalyzer.methodBumpOp false)
          ((ops.filter (coveredBy m)).foldl (CoverageAnalyzer.methodBumpOp true) [])) with
    | none =>
      have hz := lookup_eq_none_bucketAt hraw
      have hk := hcountP k
      constructor
      · simp only [Option.map_none', Option.getD_none]
        omega
      · simp only [Option.map_none', Option.getD_none]
        omega
    | some tc =>
      have hat := lookup_eq_some_bucketAt hraw
      have hk := hcountP k
      constructor
      · simp only [Option.map_some', Option.getD_some]
        show tc.1 = ops.countP (fun op => op.method == k)
        omega
      · simp only [Option.map_some', Option.getD_some]
        show tc.2 = (ops.filter (coveredBy m)).countP (fun op => op.method == k)
        omega
  · intro op hop
    rw [hbyMethod, finalizeStats_lookup]
    cases hraw : List.lookup op.method
        ((ops.filter (fun op => !(coveredBy m op))).foldl (CoverageAnalyzer.methodBumpOp false)
          ((ops.filter (coveredBy m)).foldl (CoverageAnalyzer.methodBumpOp true) [])) with
    | none =>
      exfalso
      have hz := (lookup_eq_none_bucketAt hraw).1
      rw [(hcountP op.method).1] at hz
      have hpos : 0 < ops.countP (fun o => o.method == op.method) :=
        List.countP_pos_iff.mpr ⟨op, hop, by simp⟩
      omega
    | some tc => simp

/-- Witness for `C3_by_method_partition`: on the concrete input
`([exOpMultiTag], exMapX)` the `GET` bucket exists. -/
theorem C3_by_method_partition_witness :
    ((((analyze [exOpMultiTag] exMapX).coverage_by_method.lookup "GET").map
        (fun s => s.total)).getD 0
      = [exOpMultiTag].countP (fun op => op.method == "GET"))
    ∧ ((analyze [exOpMultiTag] exMapX).coverage_by_method.lookup "GET").isSome = true :=
  ⟨((C3_by_method_partition [exOpMultiTag] exMapX).2.1 "GET").1,
   (C3_by_method_partition [exOpMultiTag] exMapX).2.2 exOpMultiTag (by decide)⟩

lemma not_mem_covered_of_mem_uncovered {ops : List EndpointInfo} {m : TagMapping}
    {op : EndpointInfo} (h : op ∈ ops.filter (fun o => !(coveredBy m o))) :
    op ∉ ops.filter (coveredBy m) := by
  intro hc
  have h1 := (List.mem_filter.mp h).2
  have h2 := (List.mem_filter.mp hc).2
  rw [h2] at h1
  simp at h1

/-- Claim C4. For every input, every operation (covered or not) contributes one
increment to the `total` of the `byTag` bucket of every tag string occurring
in its `tags` sequence (`covered` incremented too exactly when the operation
is covered), so the bucket of tag `t` counts the occurrences of `t` in the
tag sequences, an operation with an empty `tags` sequence contributes to no
bucket, an operation with `N` tags contributes `N` bucket increments
(`Σ byTag[*].total = Σ |op.tags|`), and on concrete inputs this sum exceeds
(two tags on one operation) or falls short of (no tags) `totalEndpoints`. -/
theorem C4_by_tag_increments (ops : List EndpointInfo) (m : TagMapping) :
    (∀ t : String,
        (((analyze ops m).coverage_by_tag.lookup t).map (fun s => s.total)).getD 0
            = (ops.map (fun op => op.tags.countP (fun x => x == t))).sum
        ∧ (((analyze ops m).coverage_by_tag.lookup t).map (fun s => s.covered)).getD 0
            = ((analyze ops m).covered_operations.map
                (fun op => op.tags.countP (fun x => x == t))).sum)
    ∧ (((analyze ops m).coverage_by_tag).map (fun kv => kv.2.total)).sum
        = (ops.map (fun op => op.tags.length)).sum
    ∧ ((analyze [exOpMultiTag] exMapX).coverage_by_tag.map (fun kv => kv.2.total)).sum = 2
    ∧ (analyze [exOpMultiTag] exMapX).total_endpoints = 1
    ∧ ((analyze [exOpNoTag] exMapX).coverage_by_tag.map (fun kv => kv.2.total)).sum = 0
    ∧ (analyze [exOpNoTag] exMapX).total_endpoints = 1 := by
  have hperm : List.Perm
      (ops.filter (coveredBy m) ++ ops.filter (fun op => !(coveredBy m op))) ops :=
    List.filter_append_perm (coveredBy m) ops
  have hbyTag : (analyze ops m).coverage_by_tag
      = CoverageAnalyzer.finalizeStats
          ((ops.filter (coveredBy m) ++ ops.filter (fun op => !(coveredBy m op))).foldl
            (CoverageAnalyzer.tagBumpOp (ops.filter (coveredBy m))) []) := rfl
  have hcovops : (analyze ops m).covered_operations = ops.filter (coveredBy m) := rfl
  refine ⟨?_, ?_, by decide, by decide, by decide, by decide⟩
  · intro t
    have hfold := foldl_tagBumpOp_bucketAt
      (ops.filter (coveredBy m) ++ ops.filter (fun op => !(coveredBy m op)))
      (ops.filter (coveredBy m)) [] t
    have htot : bucketTotalAt
        ((ops.filter (coveredBy m) ++ ops.filter (fun op => !(coveredBy m op))).foldl
          (CoverageAnalyzer.tagBumpOp (ops.filter (coveredBy m))) []) t
        = (ops.map (fun op => op.tags.countP (fun x => x == t))).sum := by
      rw [hfold.1]
      have hps := (hperm.map (fun op => op.tags.countP (fun x => x == t))).sum_eq
      simp only [bucketTotalAt]
      omega
    have hcov : bucketCoveredAt
        ((ops.filter (coveredBy m) ++ ops.filter (fun op => !(coveredBy m op))).foldl
          (CoverageAnalyzer.tagBumpOp (ops.filter (coveredBy m))) []) t
        = ((ops.filter (coveredBy m)).map
            (fun op => op.tags.countP (fun x => x == t))).sum := by
      rw [hfold.2]
      rw [List.map_append, List.sum_append]
      have h1 : (ops.filter (coveredBy m)).map
            (fun op => if op ∈ ops.filter (coveredBy m)
              then op.tags.countP (fun x => x == t) else 0)
          = (ops.filter (coveredBy m)).map (fun op => op.tags.countP (fun x => x == t)) :=
        List.map_congr_left (fun op hop => if_pos hop)
      have h2 : ((ops.filter (fun op => !(coveredBy m op))).map
            (fun op => if op ∈ ops.filter (coveredBy m)
              then op.tags.countP (fun x => x == t) else 0)).sum = 0 :=
        List.sum_eq_zero (fun x hx => by
          obtain ⟨op, hop, rfl⟩ := List.mem_map.mp hx
          exact if_neg (not_mem_covered_of_mem_uncovered hop))
      rw [h1, h2]
      simp only [bucketCoveredAt]
      omega
    rw [hbyTag, finalizeStats_lookup, hcovops]
    cases hraw : List.lookup t
        ((ops.filter (coveredBy m) ++ ops.filter (fun op => !(coveredBy m op))).foldl
          (CoverageAnalyzer.tagBumpOp (ops.filter (coveredBy m))) []) with
    | none =>
      have hz := lookup_eq_none_bucketAt hraw
      constructor
      · simp only [Option.map_none', Option.getD_none]
        omega
      · simp only [Option.map_none', Option.getD_none]
        omega
    | some tc =>
      have hat := lookup_eq_some_bucketAt hraw
      constructor
      · simp only [Option.map_some', Option.getD_some]
        show tc.1 = _
        omega
      · simp only [Option.map_some', Option.getD_some]
        show tc.2 = _
        omega
  · rw [hbyTag]
    have hfin : ((CoverageAnalyzer.finalizeStats
        ((ops.filter (coveredBy m) ++ ops.filter (fun op => !(coveredBy m op))).foldl
          (CoverageAnalyzer.tagBumpOp (ops.filter (coveredBy m))) [])).map
        (fun kv => kv.2.total)).sum
        = statsTotalSum
            ((ops.filter (coveredBy m) ++ ops.filter (fun op => !(coveredBy m op))).foldl
              (CoverageAnalyzer.tagBumpOp (ops.filter (coveredBy m))) []) := by
      rw [finalizeStats_totalsMap]
      rfl
    rw [hfin, foldl_tagBumpOp_statsTotalSum]
    have hps := (hperm.map (fun op => op.tags.length)).sum_eq
    show statsTotalSum [] + _ = _
    simp only [statsTotalSum, List.map_nil, List.sum_nil]
    omega

/-! ### Fold-to-filterMap characterization lemmas -/

lemma foldl_opt_append {α β : Type} (body : List β → α → List β) (F : α → Option β)
    (hbody : ∀ ops x, body ops x = ops ++ (F x).toList) :
    ∀ (l : List α) (acc : List β), l.foldl body acc = acc ++ l.filterMap F := by
  intro l
  induction l with
  | nil => intro acc; simp
  | cons x rest ih =>
    intro acc
    rw [List.foldl_cons, hbody, ih]
    cases hF : F x
    · simp [List.filterMap_cons, hF]
    · simp [List.filterMap_cons, hF]

lemma foldl_parts_append {α β : Type} (body : List β → α → List β) (G : α → List β)
    (hbody : ∀ ops x, body ops x = ops ++ G x) :
    ∀ (l : List α) (acc : List β), l.foldl body acc = acc ++ l.flatMap G := by
  intro l
  induction l with
  | nil => intro acc; simp
  | cons x rest ih =>
    intro acc
    rw [List.foldl_cons, hbody, ih, List.flatMap_cons, List.append_assoc]

lemma extract_operations_eq (schema : OpenAPISchema) :
    OpenAPIParser.extract_operations schema = verbOrderOperations schema := by
  unfold OpenAPIParser.extract_operations verbOrderOperations
  rw [foldl_parts_append _
    (fun pathItem => OpenAPIParser.httpMethods.filterMap (fun method =>
      match pathItem.2.lookup method with
      | none => none
      | some operation =>
        if (operation.operationId.getD "") ≠ "" then
          some { operation_id := operation.operationId.getD "",
                 path := pathItem.1,
                 method := strUpper method,
                 summary := operation.summary.getD "",
                 tags := operation.tags.getD [] }
        else none)) ?_ schema.paths []]
  · simp
  · intro ops pathItem
    rw [foldl_opt_append _
      (fun method =>
        match pathItem.2.lookup method with
        | none => none
        | some operation =>
          if (operation.operationId.getD "") ≠ "" then
            some { operation_id := operation.operationId.getD "",
                   path := pathItem.1,
                   method := strUpper method,
                   summary := operation.summary.getD "",
                   tags := operation.tags.getD [] }
          else none) ?_ OpenAPIParser.httpMethods ops]
    intro ops' method
    cases hlk : pathItem.2.lookup method with
    | none => simp [hlk]
    | some operation =>
      by_cases hid : (operation.operationId.getD "") = ""
      · simp [hlk, hid]
      · simp [hlk, hid]

lemma extract_operations_mem_spec {schema : OpenAPISchema} {op : EndpointInfo}
    (hop : op ∈ OpenAPIParser.extract_operations schema) :
    op.operation_id ≠ "" ∧ op.method ∈ OpenAPIParser.httpMethods.map strUpper := by
  rw [extract_operations_eq] at hop
  unfold verbOrderOperations at hop
  obtain ⟨pathItem, hpi, hop2⟩ := List.mem_flatMap.mp hop
  obtain ⟨method, hm, hsome⟩ := List.mem_filterMap.mp hop2
  cases hlk : pathItem.2.lookup method with
  | none => simp [hlk] at hsome
  | some operation =>
    by_cases hid : (operation.operationId.getD "") = ""
    · simp [hlk, hid] at hsome
    · simp only [hlk] at hsome
      rw [if_pos hid] at hsome
      have heq := Option.some.inj hsome
      subst heq
      exact ⟨hid, List.mem_map.mpr ⟨method, hm, rfl⟩⟩

/-! ### Claims C5, C6, C10 -/

/-- Claim C5, counterexample. On `exSchemaVerbOrder` (whose path item lists
`post` before `get`) the extractor's output order is not the document
iteration order: the claim's order clause fails at this input. -/
theorem C5_counterexample :
    OpenAPIParser.extract_operations exSchemaVerbOrder
      ≠ docOrderOperations exSchemaVerbOrder := by
  decide

/-- Claim C5, amended. For every schema document, the extractor considers only
the verbs `get, post, put, patch, delete` under each path (any other key is
ignored), silently skips any operation whose `operationId` defaults to the
empty string so that it appears in no output, raises no error for missing
optional fields, and defaults a missing `tags` field to the empty sequence;
output order follows the document's path order, and within each path the
fixed verb order `get, post, put, patch, delete` (not the path item's own
key order).  All of this is the equality with `verbOrderOperations`; in
particular every extracted operation has a nonempty id and an upper-cased
method from the fixed verb set. -/
theorem C5_extractor_amended (schema : OpenAPISchema) :
    OpenAPIParser.extract_operations schema = verbOrderOperations schema
    ∧ (∀ op ∈ OpenAPIParser.extract_operations schema,
        op.operation_id ≠ "" ∧ op.method ∈ OpenAPIParser.httpMethods.map strUpper) :=
  ⟨extract_operations_eq schema, fun _ hop => extract_operations_mem_spec hop⟩

/-- Witness for `C5_extractor_amended`: the `GET /x` operation extracted from
`exSchemaVerbOrder` has a nonempty id and an upper-cased fixed verb. -/
theorem C5_extractor_amended_witness :
    ({ operation_id := "getX", path := "/x", method := "GET", summary := "",
       tags := [] } : EndpointInfo).operation_id ≠ ""
    ∧ ({ operation_id := "getX", path := "/x", method := "GET", summary := "",
         tags := [] } : EndpointInfo).method
        ∈ OpenAPIParser.httpMethods.map strUpper :=
  (C5_extractor_amended exSchemaVerbOrder).2
    { operation_id := "getX", path := "/x", method := "GET", summary := "", tags := [] }
    (by decide)

lemma finalize_mem_spec {mr : List (String × Nat × Nat)} {kv : String × BucketStats}
    (h : kv ∈ CoverageAnalyzer.finalizeStats mr) :
    kv.2.percentage = CoverageAnalyzer.bucketPercentage kv.2.total kv.2.covered
    ∧ kv.2.status = CoverageAnalyzer.get_status_emoji kv.2.percentage := by
  obtain ⟨tc, htc, rfl⟩ := List.mem_map.mp h
  exact ⟨rfl, rfl⟩

lemma get_status_emoji_spec (p : ℚ) :
    (p ≥ 80 → CoverageAnalyzer.get_status_emoji p = "🟢")
    ∧ (60 ≤ p ∧ p < 80 → CoverageAnalyzer.get_status_emoji p = "🟡")
    ∧ (p < 60 → CoverageAnalyzer.get_status_emoji p = "🔴") := by
  unfold CoverageAnalyzer.get_status_emoji
  refine ⟨fun h => if_pos h, fun h => ?_, fun h => ?_⟩
  · rw [if_neg (not_le.mpr h.2), if_pos h.1]
  · have h80 : ¬ p ≥ 80 := not_le.mpr (lt_of_lt_of_le h (by norm_num))
    have h60 : ¬ p ≥ 60 := not_le.mpr h
    rw [if_neg h80, if_neg h60]

/-- Claim C6. For every bucket (any tag bucket and any method bucket) and for
the overall report, the derived percentage equals `covered/total*100` with
`0` when `total = 0`, and the derived status is GREEN (`🟢`) when
`percentage ≥ 80`, YELLOW (`🟡`) when `60 ≤ percentage < 80`, and RED
(`🔴`) otherwise. -/
theorem C6_percentage_status (ops : List EndpointInfo) (m : TagMapping) :
    (∀ kv, kv ∈ (analyze ops m).coverage_by_tag ++ (analyze ops m).coverage_by_method →
        kv.2.percentage
            = (if kv.2.total > 0 then (kv.2.covered : ℚ) / (kv.2.total : ℚ) * 100 else 0)
        ∧ (kv.2.percentage ≥ 80 → kv.2.status = "🟢")
        ∧ (60 ≤ kv.2.percentage ∧ kv.2.percentage < 80 → kv.2.status = "🟡")
        ∧ (kv.2.percentage < 60 → kv.2.status = "🔴"))
    ∧ (analyze ops m).coverage_percentage
        = (if (analyze ops m).total_endpoints > 0
            then ((analyze ops m).covered_endpoints : ℚ)
              / ((analyze ops m).total_endpoints : ℚ) * 100
            else 0) := by
  constructor
  · intro kv hkv
    have hspec : kv.2.percentage = CoverageAnalyzer.bucketPercentage kv.2.total kv.2.covered
        ∧ kv.2.status = CoverageAnalyzer.get_status_emoji kv.2.percentage := by
      rcases List.mem_append.mp hkv with h | h
      · exact finalize_mem_spec h
      · exact finalize_mem_spec h
    refine ⟨?_, ?_, ?_, ?_⟩
    · rw [hspec.1]; rfl
    · intro h; rw [hspec.2]; exact (get_status_emoji_spec kv.2.percentage).1 h
    · intro h; rw [hspec.2]; exact (get_status_emoji_spec kv.2.percentage).2.1 h
    · intro h; rw [hspec.2]; exact (get_status_emoji_spec kv.2.percentage).2.2 h
  · rfl

/-- Witness for `C6_percentage_status`: on the concrete input
`([exOpMultiTag], exMapX)` the tag bucket `"a"` (100% covered) has status
`🟢`. -/
theorem C6_percentage_status_witness :
    ({ total := 1, covered := 1,
       percentage := CoverageAnalyzer.bucketPercentage 1 1,
       status := CoverageAnalyzer.get_status_emoji (CoverageAnalyzer.bucketPercentage 1 1) } :
        BucketStats).status = "🟢" :=
  ((C6_percentage_status [exOpMultiTag] exMapX).1
      ("a", { total := 1, covered := 1,
              percentage := CoverageAnalyzer.bucketPercentage 1 1,
              status := CoverageAnalyzer.get_status_emoji
                (CoverageAnalyzer.bucketPercentage 1 1) })
      (List.mem_append_left _ (List.mem_cons_self _ _))).2.1
    (by norm_num [CoverageAnalyzer.bucketPercentage])

/-! ### Entrywise bucket bounds (for C10) -/

lemma bumpBucket_entrywise {m : List (String × Nat × Nat)} {k : String} {b : Bool}
    (h : ∀ kv ∈ m, kv.2.2 ≤ kv.2.1) :
    ∀ kv ∈ CoverageAnalyzer.bumpBucket m k b, kv.2.2 ≤ kv.2.1 := by
  induction m with
  | nil =>
    intro kv hkv
    simp [CoverageAnalyzer.bumpBucket] at hkv
    subst hkv
    cases b
    · simp
    · simp
  | cons kv0 rest ih =>
    obtain ⟨ks, t, c⟩ := kv0
    intro kv hkv
    have hhead : c ≤ t := h (ks, t, c) (List.mem_cons_self _ _)
    have htail : ∀ kv' ∈ rest, kv'.2.2 ≤ kv'.2.1 :=
      fun kv' hkv' => h kv' (List.mem_cons_of_mem _ hkv')
    cases hbeq : (ks == k) with
    | true =>
      rw [CoverageAnalyzer.bumpBucket, if_pos hbeq] at hkv
      rcases List.mem_cons.mp hkv with rfl | hkv'
      · cases b
        · simp
          omega
        · simp
          omega
      · exact htail kv hkv'
    | false =>
      rw [CoverageAnalyzer.bumpBucket, if_neg (by simp [hbeq])] at hkv
      rcases List.mem_cons.mp hkv with rfl | hkv'
      · exact hhead
      · exact ih htail kv hkv'

lemma foldl_bumpTags_entrywise (tags : List String) (b : Bool)
    (m₀ : List (String × Nat × Nat)) (h : ∀ kv ∈ m₀, kv.2.2 ≤ kv.2.1) :
    ∀ kv ∈ tags.foldl (fun acc tag => CoverageAnalyzer.bumpBucket acc tag b) m₀,
      kv.2.2 ≤ kv.2.1 := by
  induction tags generalizing m₀ with
  | nil => exact h
  | cons t rest ih =>
    rw [List.foldl_cons]
    exact ih _ (bumpBucket_entrywise h)

lemma foldl_tagBumpOp_entrywise (l cov : List EndpointInfo)
    (m₀ : List (String × Nat × Nat)) (h : ∀ kv ∈ m₀, kv.2.2 ≤ kv.2.1) :
    ∀ kv ∈ l.foldl (CoverageAnalyzer.tagBumpOp cov) m₀, kv.2.2 ≤ kv.2.1 := by
  induction l generalizing m₀ with
  | nil => exact h
  | cons op rest ih =>
    rw [List.foldl_cons]
    exact ih _ (foldl_bumpTags_entrywise op.tags _ m₀ h)

lemma foldl_methodBumpOp_entrywise (l : List EndpointInfo) (b : Bool)
    (m₀ : List (String × Nat × Nat)) (h : ∀ kv ∈ m₀, kv.2.2 ≤ kv.2.1) :
    ∀ kv ∈ l.foldl (CoverageAnalyzer.methodBumpOp b) m₀, kv.2.2 ≤ kv.2.1 := by
  induction l generalizing m₀ with
  | nil => exact h
  | cons op rest ih =>
    rw [List.foldl_cons]
    exact ih _ (bumpBucket_entrywise h)

lemma finalize_mem_bound {mr : List (String × Nat × Nat)} {kv : String × BucketStats}
    (hraw : ∀ kv' ∈ mr, kv'.2.2 ≤ kv'.2.1)
    (h : kv ∈ CoverageAnalyzer.finalizeStats mr) :
    kv.2.covered ≤ kv.2.total := by
  obtain ⟨tc, htc, rfl⟩ := List.mem_map.mp h
  exact hraw tc htc

/-- Claim C10. For every report, every `BucketStats` in both `byMethod` and
`byTag` satisfies `covered ≤ total` (hence its percentage lies in
`[0, 100]`), and the extractor additionally discards an operation whose
`operationId` field is present but equal to the empty string (Python string
truthiness), so no operation with an empty `operationId` ever appears in
any report. -/
theorem C10_bucket_bounds_and_nonempty_ids (ops : List EndpointInfo) (m : TagMapping)
    (schema : OpenAPISchema) :
    (∀ kv, kv ∈ (analyze ops m).coverage_by_tag ++ (analyze ops m).coverage_by_method →
        kv.2.covered ≤ kv.2.total
        ∧ 0 ≤ kv.2.percentage ∧ kv.2.percentage ≤ 100)
    ∧ (∀ op ∈ OpenAPIParser.extract_operations schema, op.operation_id ≠ "")
    ∧ OpenAPIParser.extract_operations
        { paths := [("/e", [("get",
            { operationId := some "", summary := none, tags := none })])] } = [] := by
  refine ⟨?_, ?_, by decide⟩
  · intro kv hkv
    have hb : kv.2.covered ≤ kv.2.total := by
      rcases List.mem_append.mp hkv with h | h
      · have h' : kv ∈ CoverageAnalyzer.finalizeStats
            ((ops.filter (coveredBy m) ++ ops.filter (fun op => !(coveredBy m op))).foldl
              (CoverageAnalyzer.tagBumpOp (ops.filter (coveredBy m))) []) := h
        exact finalize_mem_bound
          (foldl_tagBumpOp_entrywise _ _ [] (by simp)) h'
      · have h' : kv ∈ CoverageAnalyzer.finalizeStats
            ((ops.filter (fun op => !(coveredBy m op))).foldl
              (CoverageAnalyzer.methodBumpOp false)
              ((ops.filter (coveredBy m)).foldl (CoverageAnalyzer.methodBumpOp true) [])) := h
        exact finalize_mem_bound
          (foldl_methodBumpOp_entrywise _ _ _
            (foldl_methodBumpOp_entrywise _ _ [] (by simp))) h'
    have hspec : kv.2.percentage
        = CoverageAnalyzer.bucketPercentage kv.2.total kv.2.covered := by
      rcases List.mem_append.mp hkv with h | h
      · exact (finalize_mem_spec h).1
      · exact (finalize_mem_spec h).1
    refine ⟨hb, ?_, ?_⟩
    · rw [hspec]; exact bucketPercentage_nonneg _ _
    · rw [hspec]; exact bucketPercentage_le_100 hb
  · exact fun _ hop => (extract_operations_mem_spec hop).1

/-- Witness for `C10_bucket_bounds_and_nonempty_ids`: on the concrete input
`([exOpMultiTag], exMapX)` the tag bucket `"a"` satisfies
`covered ≤ total`. -/
theorem C10_bucket_bounds_and_nonempty_ids_witness :
    ({ total := 1, covered := 1,
       percentage := CoverageAnalyzer.bucketPercentage 1 1,
       status := CoverageAnalyzer.get_status_emoji (CoverageAnalyzer.bucketPercentage 1 1) } :
        BucketStats).covered
      ≤ ({ total := 1, covered := 1,
           percentage := CoverageAnalyzer.bucketPercentage 1 1,
           status := CoverageAnalyzer.get_status_emoji
             (CoverageAnalyzer.bucketPercentage 1 1) } : BucketStats).total :=
  ((C10_bucket_bounds_and_nonempty_ids [exOpMultiTag] exMapX exSchemaVerbOrder).1
      ("a", { total := 1, covered := 1,
              percentage := CoverageAnalyzer.bucketPercentage 1 1,
              status := CoverageAnalyzer.get_status_emoji
                (CoverageAnalyzer.bucketPercentage 1 1) })
      (List.mem_append_left _ (List.mem_cons_self _ _))).1

/-! ### Scanner lemmas (for C8) -/

lemma foldl_scan_skip_unreadable (files : List FeatureFileParser.FeatureFile)
    (acc : TagMapping) :
    files.foldl
        (fun operation_tags file =>
          match file.content with
          | none => operation_tags
          | some content =>
            (FeatureFileParser.findOperationIds content.data).foldl
              (fun m oid => FeatureFileParser.appendTag m oid file.relative_path)
              operation_tags)
        acc
      = (files.filter (fun f => f.content.isSome)).foldl
        (fun operation_tags file =>
          match file.content with
          | none => operation_tags
          | some content =>
            (FeatureFileParser.findOperationIds content.data).foldl
              (fun m oid => FeatureFileParser.appendTag m oid file.relative_path)
              operation_tags)
        acc := by
  induction files generalizing acc with
  | nil => rfl
  | cons f rest ih =>
    cases hf : f.content with
    | none => simp [List.foldl_cons, List.filter_cons, hf, ih]
    | some c => simp [List.foldl_cons, List.filter_cons, hf, ih]

lemma mem_keys_appendTag (m : TagMapping) (k v : String) (k' : String) :
    k' ∈ (FeatureFileParser.appendTag m k v).map Prod.fst
      ↔ k' ∈ m.map Prod.fst ∨ k' = k := by
  induction m with
  | nil => simp [FeatureFileParser.appendTag]
  | cons kv rest ih =>
    obtain ⟨ks, vs⟩ := kv
    by_cases hks : ks = k
    · subst hks
      simp [FeatureFileParser.appendTag]
      tauto
    · have hbeq : (ks == k) = false := beq_eq_false_iff_ne.mpr hks
      simp [FeatureFileParser.appendTag, hbeq, ih]
      tauto

lemma mem_keys_idFold (ids : List String) (p : String) (m₀ : TagMapping) (k : String) :
    k ∈ ((ids.foldl (fun m oid => FeatureFileParser.appendTag m oid p) m₀).map Prod.fst)
      ↔ k ∈ m₀.map Prod.fst ∨ k ∈ ids := by
  induction ids generalizing m₀ with
  | nil => simp
  | cons oid rest ih =>
    rw [List.foldl_cons, ih]
    rw [mem_keys_appendTag]
    simp [or_assoc]

lemma mem_keys_extract (files : List FeatureFileParser.FeatureFile) (k : String) :
    k ∈ (FeatureFileParser.extract_operation_tags files).map Prod.fst
      ↔ ∃ f ∈ files, ∃ c, f.content = some c
          ∧ k ∈ FeatureFileParser.findOperationIds c.data := by
  have hgen : ∀ (acc : TagMapping),
      k ∈ ((files.foldl
          (fun operation_tags file =>
            match file.content with
            | none => operation_tags
            | some content =>
              (FeatureFileParser.findOperationIds content.data).foldl
                (fun m oid => FeatureFileParser.appendTag m oid file.relative_path)
                operation_tags)
          acc).map Prod.fst)
        ↔ k ∈ acc.map Prod.fst
          ∨ ∃ f ∈ files, ∃ c, f.content = some c
              ∧ k ∈ FeatureFileParser.findOperationIds c.data := by
    induction files with
    | nil => intro acc; simp
    | cons f rest ih =>
      intro acc
      rw [List.foldl_cons]
      cases hf : f.content with
      | none =>
        rw [ih]
        simp [hf]
      | some c =>
        rw [ih, mem_keys_idFold]
        constructor
        · rintro ((h | h) | h)
          · exact Or.inl h
          · exact Or.inr ⟨f, List.mem_cons_self _ _, c, hf, h⟩
          · obtain ⟨g, hg, c', hc', hk⟩ := h
            exact Or.inr ⟨g, List.mem_cons_of_mem _ hg, c', hc', hk⟩
        · rintro (h | ⟨g, hg, c', hc', hk⟩)
          · exact Or.inl (Or.inl h)
          · rcases List.mem_cons.mp hg with rfl | hg'
            · rw [hf] at hc'
              obtain rfl := Option.some.inj hc'
              exact Or.inl (Or.inr hk)
            · exact Or.inr ⟨g, hg', c', hc', hk⟩
  unfold FeatureFileParser.extract_operation_tags
  simpa using hgen []

lemma forall₂_mem_left {α β : Type} {R : α → β → Prop} {l₁ : List α} {l₂ : List β}
    (h : List.Forall₂ R l₁ l₂) {a : α} (ha : a ∈ l₁) : ∃ b ∈ l₂, R a b := by
  induction h with
  | nil => simp at ha
  | cons hr hrest ih =>
    rcases List.mem_cons.mp ha with rfl | ha'
    · exact ⟨_, List.mem_cons_self _ _, hr⟩
    · obtain ⟨b, hb, hab⟩ := ih ha'
      exact ⟨b, List.mem_cons_of_mem _ hb, hab⟩

/-- Claim C8. For every scan, a test file that cannot be read is skipped and
scanning continues: the resulting `TagMapping` is exactly the mapping built
from the readable files, so an unreadable file's contributions are absent;
consequently a degraded run (same files, some unreadable) can only lose
mapping keys, and the coverage count of any report computed from it is
lower than or equal to that of the fully readable run — never corrupted. -/
theorem C8_unreadable_files_skipped :
    (∀ files : List FeatureFileParser.FeatureFile,
        FeatureFileParser.extract_operation_tags files
          = FeatureFileParser.extract_operation_tags
              (files.filter (fun f => f.content.isSome)))
    ∧ (∀ files₂ files₁, degradedFrom files₂ files₁ →
        ∀ k, k ∈ (FeatureFileParser.extract_operation_tags files₂).map Prod.fst
          → k ∈ (FeatureFileParser.extract_operation_tags files₁).map Prod.fst)
    ∧ (∀ files₂ files₁ (ops : List EndpointInfo), degradedFrom files₂ files₁ →
        (analyze ops (FeatureFileParser.extract_operation_tags files₂)).covered_endpoints
          ≤ (analyze ops
              (FeatureFileParser.extract_operation_tags files₁)).covered_endpoints) := by
  have hkeys : ∀ files₂ files₁, degradedFrom files₂ files₁ →
      ∀ k, k ∈ (FeatureFileParser.extract_operation_tags files₂).map Prod.fst
        → k ∈ (FeatureFileParser.extract_operation_tags files₁).map Prod.fst := by
    intro files₂ files₁ hdeg k hk
    rw [mem_keys_extract] at hk ⊢
    obtain ⟨f₂, hf₂, c, hc, hkc⟩ := hk
    obtain ⟨f₁, hf₁, hrel⟩ := forall₂_mem_left hdeg hf₂
    rcases hrel with rfl | ⟨-, hnone⟩
    · exact ⟨f₂, hf₁, c, hc, hkc⟩
    · rw [hnone] at hc
      simp at hc
  refine ⟨fun files => foldl_scan_skip_unreadable files [], hkeys, ?_⟩
  intro files₂ files₁ ops hdeg
  have hmono : ∀ op ∈ ops,
      coveredBy (FeatureFileParser.extract_operation_tags files₂) op = true
        → coveredBy (FeatureFileParser.extract_operation_tags files₁) op = true := by
    intro op _ hcov
    rw [coveredBy_eq] at hcov ⊢
    rw [decide_eq_true_eq] at hcov ⊢
    exact hkeys files₂ files₁ hdeg op.operation_id hcov
  show (ops.filter (coveredBy (FeatureFileParser.extract_operation_tags files₂))).length
      ≤ (ops.filter (coveredBy (FeatureFileParser.extract_operation_tags files₁))).length
  rw [← List.countP_eq_length_filter, ← List.countP_eq_length_filter]
  exact List.countP_mono_left hmono

/-- Witness for `C8_unreadable_files_skipped`: one readable feature file
tagging `getX`, and the degraded run where that file is unreadable. -/
theorem C8_unreadable_files_skipped_witness :
    (analyze [exOpMultiTag]
        (FeatureFileParser.extract_operation_tags
          [{ relative_path := "f1.feature", content := none }])).covered_endpoints
      ≤ (analyze [exOpMultiTag]
          (FeatureFileParser.extract_operation_tags
            [{ relative_path := "f1.feature",
               content := some "@apiOperation:getX" }])).covered_endpoints :=
  (C8_unreadable_files_skipped).2.2
    [{ relative_path := "f1.feature", content := none }]
    [{ relative_path := "f1.feature", content := some "@apiOperation:getX" }]
    [exOpMultiTag]
    (List.Forall₂.cons (Or.inr ⟨rfl, rfl⟩) List.Forall₂.nil)

/-! ### Console formatter lemmas (for C7) -/

lemma tagDescLe_trans : ∀ (a b c : String × BucketStats),
    decide (b.2.percentage ≤ a.2.percentage) = true →
    decide (c.2.percentage ≤ b.2.percentage) = true →
    decide (c.2.percentage ≤ a.2.percentage) = true := by
  intro a b c hab hbc
  rw [decide_eq_true_eq] at hab hbc ⊢
  exact le_trans hbc hab

lemma tagDescLe_total : ∀ (a b : String × BucketStats),
    (decide (b.2.percentage ≤ a.2.percentage)
      || decide (a.2.percentage ≤ b.2.percentage)) = true := by
  intro a b
  rw [Bool.or_eq_true, decide_eq_true_eq, decide_eq_true_eq]
  exact (le_total b.2.percentage a.2.percentage)

lemma uncoveredKeyLe_iff (a b : EndpointInfo) :
    ReportFormatter.uncoveredKeyLe a b = true
      ↔ (a.tags.headD "" < b.tags.headD ""
          ∨ (a.tags.headD "" = b.tags.headD "" ∧ a.operation_id ≤ b.operation_id)) := by
  simp [ReportFormatter.uncoveredKeyLe]

lemma uncoveredKeyLe_trans : ∀ (a b c : EndpointInfo),
    ReportFormatter.uncoveredKeyLe a b = true →
    ReportFormatter.uncoveredKeyLe b c = true →
    ReportFormatter.uncoveredKeyLe a c = true := by
  intro a b c hab hbc
  rw [uncoveredKeyLe_iff] at hab hbc ⊢
  rcases hab with h1 | ⟨h1, h1'⟩
  · rcases hbc with h2 | ⟨h2, h2'⟩
    · exact Or.inl (lt_trans h1 h2)
    · exact Or.inl (h2 ▸ h1)
  · rcases hbc with h2 | ⟨h2, h2'⟩
    · exact Or.inl (h1 ▸ h2)
    · exact Or.inr ⟨h1.trans h2, le_trans h1' h2'⟩

lemma uncoveredKeyLe_total : ∀ (a b : EndpointInfo),
    (ReportFormatter.uncoveredKeyLe a b || ReportFormatter.uncoveredKeyLe b a) = true := by
  intro a b
  rw [Bool.or_eq_true, uncoveredKeyLe_iff, uncoveredKeyLe_iff]
  rcases lt_trichotomy (a.tags.headD "") (b.tags.headD "") with h | h | h
  · exact Or.inl (Or.inl h)
  · rcases le_total a.operation_id b.operation_id with h' | h'
    · exact Or.inl (Or.inr ⟨h, h'⟩)
    · exact Or.inr (Or.inr ⟨h.symm, h'⟩)
  · exact Or.inr (Or.inl h)

lemma opIdLe_trans : ∀ (a b c : EndpointInfo),
    decide (a.operation_id ≤ b.operation_id) = true →
    decide (b.operation_id ≤ c.operation_id) = true →
    decide (a.operation_id ≤ c.operation_id) = true := by
  intro a b c hab hbc
  rw [decide_eq_true_eq] at hab hbc ⊢
  exact le_trans hab hbc

lemma opIdLe_total : ∀ (a b : EndpointInfo),
    (decide (a.operation_id ≤ b.operation_id)
      || decide (b.operation_id ≤ a.operation_id)) = true := by
  intro a b
  rw [Bool.or_eq_true, decide_eq_true_eq, decide_eq_true_eq]
  exact le_total a.operation_id b.operation_id

/-- Claim C7, counterexample. With one covered operation referenced by four
feature files, the console covered section shows exactly the first three
files and contains no `more` suffix for the fourth: the claim's "`+N more`
suffix beyond the caps" fails for the 3-files-per-entry cap (the code emits
a suffix only beyond the 20-entry cap). -/
theorem C7_counterexample :
    ((exMap4.lookup "getX").getD []).length = 4
    ∧ ReportFormatter.consoleCoveredSection (analyze [exOpMultiTag] exMap4) exMap4
        = ["COVERED ENDPOINTS (1 total)", repChar 80 '-',
           "  ✓ getX (GET /x)", "      → f1", "      → f2", "      → f3", ""] := by
  constructor
  · decide
  · have hsort : ReportFormatter.consoleSortedCovered (analyze [exOpMultiTag] exMap4)
        = [exOpMultiTag] := by
      show List.mergeSort [exOpMultiTag] _ = [exOpMultiTag]
      exact List.mergeSort_singleton exOpMultiTag
    unfold ReportFormatter.consoleCoveredSection
    rw [hsort]
    decide

/-- Claim C7, amended. For every report and tag mapping, the plain-text
rendering sorts its tag table by percentage descending with ties broken by
the mapping's natural key order (stability), sorts its uncovered-operation
table by `(first tag or empty string, operationId)` ascending, and lists
covered operations capped at the first 20 entries by operationId ascending
with up to 3 referencing files shown per entry; an `... and N more` suffix
is emitted only beyond the 20-entry cap (files hidden by the 3-file cap get
no suffix). -/
theorem C7_console_ordering (r : CoverageReport) (m : TagMapping) :
    List.Perm (ReportFormatter.consoleSortedTags r) r.coverage_by_tag
    ∧ List.Pairwise (fun a b => b.2.percentage ≤ a.2.percentage)
        (ReportFormatter.consoleSortedTags r)
    ∧ (∀ e₁ e₂, List.Sublist [e₁, e₂] r.coverage_by_tag
        → e₁.2.percentage = e₂.2.percentage
        → List.Sublist [e₁, e₂] (ReportFormatter.consoleSortedTags r))
    ∧ List.Perm (ReportFormatter.consoleSortedUncovered r) r.uncovered_operations
    ∧ List.Pairwise (fun a b =>
        a.tags.headD "" < b.tags.headD ""
        ∨ (a.tags.headD "" = b.tags.headD "" ∧ a.operation_id ≤ b.operation_id))
        (ReportFormatter.consoleSortedUncovered r)
    ∧ List.Perm (ReportFormatter.consoleSortedCovered r) r.covered_operations
    ∧ List.Pairwise (fun a b => a.operation_id ≤ b.operation_id)
        (ReportFormatter.consoleSortedCovered r)
    ∧ ReportFormatter.consoleCoveredSection r m
        = ["COVERED ENDPOINTS (" ++ toString r.covered_operations.length ++ " total)",
           repChar 80 '-']
          ++ (if r.covered_operations ≠ [] then
                ((ReportFormatter.consoleSortedCovered r).take 20).flatMap
                  (fun op =>
                    ("  ✓ " ++ op.operation_id ++ " (" ++ op.method ++ " " ++ op.path
                        ++ ")")
                      :: ((((m.lookup op.operation_id).getD []).take 3).map
                          (fun f => "      → " ++ f)))
                ++ (if r.covered_operations.length > 20 then
                      ["  ... and " ++ toString (r.covered_operations.length - 20)
                        ++ " more"]
                    else [])
              else [])
          ++ [""] := by
  refine ⟨List.mergeSort_perm _ _, ?_, ?_, List.mergeSort_perm _ _, ?_,
    List.mergeSort_perm _ _, ?_, ?_⟩
  · exact (List.sorted_mergeSort tagDescLe_trans tagDescLe_total _).imp
      (fun h => of_decide_eq_true h)
  · intro e₁ e₂ hsub heq
    exact List.pair_sublist_mergeSort tagDescLe_trans tagDescLe_total
      (decide_eq_true (le_of_eq heq.symm)) hsub
  · exact (List.sorted_mergeSort uncoveredKeyLe_trans uncoveredKeyLe_total _).imp
      (fun h => (uncoveredKeyLe_iff _ _).mp h)
  · exact (List.sorted_mergeSort opIdLe_trans opIdLe_total _).imp
      (fun h => of_decide_eq_true h)
  · unfold ReportFormatter.consoleCoveredSection
    congr 1
    congr 1
    by_cases hne : r.covered_operations ≠ []
    · rw [if_pos hne, if_pos hne]
      congr 1
      rw [foldl_parts_append _
        (fun op =>
          ("  ✓ " ++ op.operation_id ++ " (" ++ op.method ++ " " ++ op.path ++ ")")
            :: ((((m.lookup op.operation_id).getD []).take 3).map
                (fun f => "      → " ++ f)))
        (fun lines op => by simp) _ []]
      simp
    · rw [if_neg hne, if_neg hne]

/-- Witness for `C7_console_ordering`: on the concrete report for
`([exOpMultiTag], exMapX)` the two tag buckets have equal percentages and
keep the mapping order `a` before `b` in the sorted tag table. -/
theorem C7_console_ordering_witness :
    List.Sublist
      [("a", ({ total := 1, covered := 1,
                percentage := CoverageAnalyzer.bucketPercentage 1 1,
                status := CoverageAnalyzer.get_status_emoji
                  (CoverageAnalyzer.bucketPercentage 1 1) } : BucketStats)),
       ("b", ({ total := 1, covered := 1,
                percentage := CoverageAnalyzer.bucketPercentage 1 1,
                status := CoverageAnalyzer.get_status_emoji
                  (CoverageAnalyzer.bucketPercentage 1 1) } : BucketStats))]
      (ReportFormatter.consoleSortedTags (analyze [exOpMultiTag] exMapX)) :=
  (C7_console_ordering (analyze [exOpMultiTag] exMapX) exMapX).2.2.1
    ("a", { total := 1, covered := 1,
            percentage := CoverageAnalyzer.bucketPercentage 1 1,
            status := CoverageAnalyzer.get_status_emoji
              (CoverageAnalyzer.bucketPercentage 1 1) })
    ("b", { total := 1, covered := 1,
            percentage := CoverageAnalyzer.bucketPercentage 1 1,
            status := CoverageAnalyzer.get_status_emoji
              (CoverageAnalyzer.bucketPercentage 1 1) })
    (List.Sublist.refl _) rfl

/-! ### Formatter agreement lemmas (for C9) -/

lemma dropLast_getLast_append4 {α : Type} (Y : List α) (a b c d : α) :
    ((Y ++ [a, b, c, d]).dropLast).getLast? = some c := by
  have h1 : Y ++ [a, b, c, d] = (Y ++ [a, b, c]) ++ [d] := by simp
  rw [h1, List.dropLast_concat]
  have h2 : Y ++ [a, b, c] = (Y ++ [a, b]) ++ [c] := by simp
  rw [h2, List.getLast?_concat]

lemma md_timestamp_line (now : String) (r : CoverageReport) (m : TagMapping) :
    ((ReportFormatter.format_markdown_lines now r m).dropLast).getLast?
      = some ("*Report generated: " ++ now ++ "*") := by
  unfold ReportFormatter.format_markdown_lines
  exact dropLast_getLast_append4 _ _ _ _ _

/-- Claim C9. All four rendering functions present the same totals and
percentages drawn from the same report object: the console lines, the JSON
summary object, the markdown summary table, and the HTML stat boxes each
display `total_endpoints`, `covered_endpoints`, `uncovered_endpoints` and a
fixed rounding of `coverage_percentage` of the same report.  The console,
JSON and HTML renderers are (by their embedded signatures) functions of the
report and the tag mapping alone; only the markdown renderer additionally
reads the wall clock, embedding it as the isolated footer line
`*Report generated: <now>*` from which the timestamp is recoverable — so
markdown output for different clock readings differs, while the other three
renderings are deterministic in `(report, tagMapping)`. -/
theorem C9_formats_agree (r : CoverageReport) (m : TagMapping) (now : String) :
    ("Total Endpoints:      " ++ toString r.total_endpoints)
        ∈ ReportFormatter.format_console_lines r m
    ∧ ("Covered Endpoints:    " ++ toString r.covered_endpoints)
        ∈ ReportFormatter.format_console_lines r m
    ∧ ("Uncovered Endpoints:  " ++ toString r.uncovered_endpoints)
        ∈ ReportFormatter.format_console_lines r m
    ∧ ("Coverage:             " ++ fmtFixed 2 r.coverage_percentage ++ "%")
        ∈ ReportFormatter.format_console_lines r m
    ∧ jsonField (ReportFormatter.format_json_data r m) "summary"
        = some (.obj
            [("total_endpoints", .int r.total_endpoints),
             ("covered_endpoints", .int r.covered_endpoints),
             ("uncovered_endpoints", .int r.uncovered_endpoints),
             ("coverage_percentage", .rat (round2 r.coverage_percentage))])
    ∧ ("| Total Endpoints | " ++ toString r.total_endpoints ++ " |")
        ∈ ReportFormatter.format_markdown_lines now r m
    ∧ ("| Covered Endpoints | " ++ toString r.covered_endpoints ++ " |")
        ∈ ReportFormatter.format_markdown_lines now r m
    ∧ ("| Uncovered Endpoints | " ++ toString r.uncovered_endpoints ++ " |")
        ∈ ReportFormatter.format_markdown_lines now r m
    ∧ ((ReportFormatter.format_markdown_lines now r m).dropLast).getLast?
        = some ("*Report generated: " ++ now ++ "*")
    ∧ (∀ now₁ now₂, ReportFormatter.format_markdown_lines now₁ r m
          = ReportFormatter.format_markdown_lines now₂ r m → now₁ = now₂)
    ∧ ReportFormatter.format_html r m
        = ReportFormatter.htmlHead r ++ ReportFormatter.htmlRest r m
    ∧ (∃ s₁ s₂ s₃ s₄ s₅ s₆, ReportFormatter.htmlHead r
        = s₁ ++ toString r.total_endpoints ++ s₂ ++ toString r.covered_endpoints
          ++ s₃ ++ toString r.uncovered_endpoints ++ s₄
          ++ pyFloatRepr r.coverage_percentage ++ s₅
          ++ toString (roundHalfEven r.coverage_percentage) ++ s₆) := by
  refine ⟨?_, ?_, ?_, ?_, rfl, ?_, ?_, ?_, md_timestamp_line now r m, ?_, rfl, ?_⟩
  · exact List.mem_append_left _ (List.mem_append_left _
      (List.mem_append_left _ (List.mem_append_left _
        (List.mem_append_left _ (by simp)))))
  · exact List.mem_append_left _ (List.mem_append_left _
      (List.mem_append_left _ (List.mem_append_left _
        (List.mem_append_left _ (by simp)))))
  · exact List.mem_append_left _ (List.mem_append_left _
      (List.mem_append_left _ (List.mem_append_left _
        (List.mem_append_left _ (by simp)))))
  · exact List.mem_append_left _ (List.mem_append_left _
      (List.mem_append_left _ (List.mem_append_left _
        (List.mem_append_left _ (by simp)))))
  · exact List.mem_append_left _ (List.mem_append_left _
      (List.mem_append_left _ (List.mem_append_left _ (by simp))))
  · exact List.mem_append_left _ (List.mem_append_left _
      (List.mem_append_left _ (List.mem_append_left _ (by simp))))
  · exact List.mem_append_left _ (List.mem_append_left _
      (List.mem_append_left _ (List.mem_append_left _ (by simp))))
  · intro now₁ now₂ h
    have h2 := congrArg (fun l => (List.dropLast l).getLast?) h
    simp only at h2
    rw [md_timestamp_line now₁ r m, md_timestamp_line now₂ r m] at h2
    have h3 := Option.some.inj h2
    have h4 := congrArg String.data h3
    simp only [String.data_append] at h4
    exact String.ext (List.append_cancel_left (List.append_cancel_right h4))
  · exact ⟨_, _, _, _, _, _, rfl⟩

/-- Witness for `C9_formats_agree`: the markdown rendering of the empty
report embeds the timestamp it was given, and equal renderings force equal
timestamps. -/
theorem C9_formats_agree_witness :
    ((ReportFormatter.format_markdown_lines "t0" (analyze [] []) []).dropLast).getLast?
        = some ("*Report generated: " ++ "t0" ++ "*")
    ∧ ("t0" : String) = "t0" :=
  ⟨(C9_formats_agree (analyze [] []) [] "t0").2.2.2.2.2.2.2.2.1,
   (C9_formats_agree (analyze [] []) [] "t0").2.2.2.2.2.2.2.2.2.1 "t0" "t0" rfl⟩

end ApiCoverageReport
